import Mathlib

/-!
# B-Chat proximity transport

A shallow embedding of `src/services/bluetooth.js`, `src/services/database.js` and
`src/context/ChatContext.js`.

* A JavaScript string is the list of its UTF-16 code units, written as `Char`s; `length`,
  `slice`, `replace`, `split` and `startsWith` act on the units as the built-ins do.
* A JavaScript number is an exact rational (`JSNumber`): `*`, `/`, `+`, `<` and `Math.round`
  are computed without floating-point rounding.  `Math.pow` is exact for a natural-number
  exponent; for any other exponent its value comes from the parameter `rpow`.
* Methods of the `BluetoothService` singleton and of the `ChatProvider` become functions on
  an explicit `World`; `Date.now()`, `generateId()` and the outcome of radio writes are inputs.
* The SQLite tables of `database.js` are lists of rows in insertion order; the database is
  assumed opened by `initDatabase`.
-/

set_option maxRecDepth 100000

namespace BChat

/-! ## Strings -/

/-- A JavaScript string: the sequence of its code units, one `Char` per unit.  Strings with
units outside the Basic Multilingual Plane or with surrogate units are not represented. -/
abbrev JSString := List Char

/-- The built-in `s.slice(i, j)` for non-negative indices: the units at positions
`i ≤ p < min j s.length`. -/
def slice {α : Type} (s : List α) (i j : Nat) : List α :=
  (s.drop i).take (j - i)

/-- The built-in `s.startsWith(p)`. -/
def startsWith (s p : JSString) : Bool := p.isPrefixOf s

/-- The built-in `s.replace(pat, rep)` with a string pattern: the first occurrence of `pat`
(scanning from index 0) is replaced by `rep`; `rep` holds no `$` pattern. -/
def replace (s pat rep : JSString) : JSString :=
  match s with
  | [] => if pat = [] then rep else []
  | c :: cs =>
    if pat.isPrefixOf (c :: cs) then rep ++ (c :: cs).drop pat.length
    else c :: replace cs pat rep

/-- The built-in `s.split(sep)` for a one-unit separator. -/
def split (sep : Char) : JSString → List JSString
  | [] => [[]]
  | c :: cs =>
    if c = sep then [] :: split sep cs
    else
      match split sep cs with
      | [] => [[c]]
      | p :: ps => (c :: p) :: ps

/-- JavaScript truthiness of a value that is a string, `null` or `undefined`:
only a non-empty string is truthy. -/
def truthy : Option JSString → Bool
  | some (_ :: _) => true
  | _ => false

/-- The expression `x || d` where `x` is a string or `undefined`: `x` when truthy, else `d`. -/
def orElse {α : Type} (x : Option JSString) (inj : JSString → α) (d : α) : α :=
  match x with
  | some (c :: cs) => inj (c :: cs)
  | _ => d

/-! ## Numbers (`Math.round`, `Math.pow`) -/

/-- A JavaScript number in exact arithmetic. -/
abbrev JSNumber := ℚ

/-- The built-in `Math.round`: the nearest integer, ties towards +∞. -/
def Math.round (x : JSNumber) : JSNumber := ((⌊x + 1 / 2⌋ : ℤ) : ℚ)

/-- The built-in `Math.pow(x, y)`: the exact power when `y` is a natural number; for any other
exponent the value is that of the platform function `rpow`, which has no rational closed form. -/
def Math.pow (rpow : JSNumber → JSNumber → JSNumber) (x y : JSNumber) : JSNumber :=
  if y.den = 1 ∧ 0 ≤ y.num then x ^ y.num.toNat else rpow x y

/-! ## Identity codec and distance estimator (`bluetooth.js`, lines 100-130) -/

/-- Method `calculateDistance(rssi)`. -/
def calculateDistance (rpow : JSNumber → JSNumber → JSNumber) (rssi : Int) : JSNumber :=
  let txPower : JSNumber := -59
  if rssi = 0 then -1
  else
    let ratio : JSNumber := (rssi : ℚ) * 1.0 / txPower
    if ratio < 1.0 then Math.pow rpow ratio 10
    else
      let distance : JSNumber := 0.89976 * Math.pow rpow ratio 7.7095 + 0.111
      Math.round (distance * 10) / 10

/-- The object returned by `parseDeviceName`. -/
structure DeviceData where
  userId : JSString
  username : JSString
  profilePic : Option JSString
deriving DecidableEq, Repr

/-- Method `parseDeviceName(name)`. -/
def parseDeviceName (name : JSString) : DeviceData :=
  let parts := split '_' (replace name "BCHAT_".toList [])
  { userId := orElse parts[0]? id "unknown".toList
    username := orElse parts[1]? id "User".toList
    profilePic := orElse parts[2]? some none }

/-- The template literal of `setDeviceName`, line 123: the advertisement string
built from `userId` and `username`. -/
def deviceName (userId username : JSString) : JSString :=
  "BCHAT_".toList ++ userId ++ "_".toList ++ username

/-- The reading of the specification: field `k` of an advertisement, or the default when that
field is missing (no such index) or empty. -/
def specField {α : Type} (fields : List JSString) (k : Nat) (inj : JSString → α) (d : α) : α :=
  if h : k < fields.length then (if fields[k] = [] then d else inj fields[k]) else d

/-! ## Message chunking (`bluetooth.js`, lines 10 and 221-227) -/

/-- The constant `MESSAGE_CHUNK_SIZE = 512`. -/
def MESSAGE_CHUNK_SIZE : Nat := 512

/-- The `for (let i = 0; i < message.length; i += MESSAGE_CHUNK_SIZE)` loop of `chunkMessage`,
started at index `i` with the frames pushed so far in `chunks`.  The first argument bounds the
number of iterations; `chunkMessage` passes `message.length`, which the loop never exhausts. -/
def chunkLoop {α : Type} (message : List α) : Nat → Nat → List (List α) → List (List α)
  | 0, _, chunks => chunks
  | fuel + 1, i, chunks =>
    if i < message.length then
      chunkLoop message fuel (i + MESSAGE_CHUNK_SIZE)
        (chunks ++ [slice message i (i + MESSAGE_CHUNK_SIZE)])
    else chunks

/-- Method `chunkMessage(message)`: the frames of a serialized message. -/
def chunkMessage {α : Type} (message : List α) : List (List α) :=
  chunkLoop message message.length 0 []

/-! ## JSON (`JSON.stringify`, `JSON.parse`) -/

/-- A value produced by `JSON.parse`. -/
inductive JSValue where
  | null : JSValue
  | bool (b : Bool) : JSValue
  | num (n : JSNumber) : JSValue
  | str (s : JSString) : JSValue
  | arr (items : List JSValue) : JSValue
  | obj (fields : List (JSString × JSValue)) : JSValue

/-- JSON whitespace: space, tab, line feed, carriage return. -/
def isWhitespace (c : Char) : Bool := c = ' ' || c = '\t' || c = '\n' || c = '\r'

/-- Drop leading JSON whitespace. -/
def skipWhitespace : JSString → JSString
  | [] => []
  | c :: cs => if isWhitespace c then skipWhitespace cs else c :: cs

/-- The value of a hexadecimal digit. -/
def hexDigit (c : Char) : Option Nat :=
  if '0' ≤ c ∧ c ≤ '9' then some (c.toNat - '0'.toNat)
  else if 'a' ≤ c ∧ c ≤ 'f' then some (c.toNat - 'a'.toNat + 10)
  else if 'A' ≤ c ∧ c ≤ 'F' then some (c.toNat - 'A'.toNat + 10)
  else none

/-- A JSON string after its opening quote: the decoded units and the text after the
closing quote.  Control units and unknown escapes are rejected.  A `\u` escape is decoded with
`Char.ofNat`; for a surrogate unit (`d800` to `dfff`), which a `Char` cannot hold, the decoded
unit differs from the one `JSON.parse` keeps, while success or failure of the parse is the
same. -/
def parseStringBody : JSString → Option (JSString × JSString)
  | [] => none
  | '"' :: rest => some ([], rest)
  | '\\' :: 'u' :: a :: b :: c :: d :: rest =>
    match hexDigit a, hexDigit b, hexDigit c, hexDigit d, parseStringBody rest with
    | some a, some b, some c, some d, some (s, r) =>
      some (Char.ofNat (((a * 16 + b) * 16 + c) * 16 + d) :: s, r)
    | _, _, _, _, _ => none
  | '\\' :: e :: rest =>
    let unit : Option Char :=
      if e = '"' then some '"' else if e = '\\' then some '\\' else if e = '/' then some '/'
      else if e = 'b' then some (Char.ofNat 8) else if e = 'f' then some (Char.ofNat 12)
      else if e = 'n' then some '\n' else if e = 'r' then some '\r'
      else if e = 't' then some '\t' else none
    match unit, parseStringBody rest with
    | some c, some (s, r) => some (c :: s, r)
    | _, _ => none
  | c :: rest =>
    if c.toNat < 32 ∨ c = '\\' then none
    else
      match parseStringBody rest with
      | some (s, r) => some (c :: s, r)
      | none => none

/-- The longest run of decimal digits at the head of the text, and the rest. -/
def parseDigits : JSString → List Nat × JSString
  | [] => ([], [])
  | c :: cs =>
    if '0' ≤ c ∧ c ≤ '9' then
      let (ds, r) := parseDigits cs
      ((c.toNat - '0'.toNat) :: ds, r)
    else ([], c :: cs)

/-- The number written by a list of decimal digits. -/
def digitsValue (ds : List Nat) : Nat := ds.foldl (fun acc d => acc * 10 + d) 0

/-- The optional fraction part of a JSON number, added to the integer part `m`. -/
def parseFraction (m : JSNumber) : JSString → Option (JSNumber × JSString)
  | '.' :: cs =>
    match parseDigits cs with
    | ([], _) => none
    | (ds, r) => some (m + (digitsValue ds : ℚ) / (10 : ℚ) ^ ds.length, r)
  | s => some (m, s)

/-- The optional exponent part of a JSON number, applied to `m`. -/
def parseExponent (m : JSNumber) (s : JSString) : Option (JSNumber × JSString) :=
  let scale (neg : Bool) (cs : JSString) : Option (JSNumber × JSString) :=
    match parseDigits cs with
    | ([], _) => none
    | (ds, r) =>
      some (if neg then m / (10 : ℚ) ^ digitsValue ds else m * (10 : ℚ) ^ digitsValue ds, r)
  match s with
  | e :: cs =>
    if e = 'e' ∨ e = 'E' then
      match cs with
      | '+' :: cs1 => scale false cs1
      | '-' :: cs1 => scale true cs1
      | _ => scale false cs
    else some (m, s)
  | [] => some (m, s)

/-- A JSON number without its sign: digits with no superfluous leading zero, then the
optional fraction and exponent. -/
def parseUnsigned (s : JSString) : Option (JSNumber × JSString) :=
  match parseDigits s with
  | ([], _) => none
  | (0 :: _ :: _, _) => none
  | (ds, r) =>
    match parseFraction (digitsValue ds : ℚ) r with
    | some (m, r1) => parseExponent m r1
    | none => none

/-- A JSON number. -/
def parseNumber : JSString → Option (JSNumber × JSString)
  | '-' :: cs => (parseUnsigned cs).map (fun p => (-p.1, p.2))
  | s => parseUnsigned s

/-- Define property `k` of an object under construction: a repeated key keeps its place and
takes the later value.  Keys stay in text order (integer-like keys are not moved to the front). -/
def setField (fields : List (JSString × JSValue)) (k : JSString) (v : JSValue) :
    List (JSString × JSValue) :=
  match fields with
  | [] => [(k, v)]
  | (k1, v1) :: fs => if k1 = k then (k, v) :: fs else (k1, v1) :: setField fs k v

mutual
/-- One JSON value at the head of the text (after whitespace), and the rest of the text.
The first argument bounds the number of nested calls; `JSON.parse` passes twice the text length
plus two, and any two successive nested calls consume at least one unit between them. -/
def parseValue : Nat → JSString → Option (JSValue × JSString)
  | 0, _ => none
  | fuel + 1, s =>
    match skipWhitespace s with
    | '\x7b' :: rest =>
      match skipWhitespace rest with
      | '\x7d' :: rest1 => some (.obj [], rest1)
      | _ => parseMembers fuel rest []
    | '[' :: rest =>
      match skipWhitespace rest with
      | ']' :: rest1 => some (.arr [], rest1)
      | _ => parseElements fuel rest []
    | '"' :: rest =>
      match parseStringBody rest with
      | some (str, r) => some (.str str, r)
      | none => none
    | 't' :: 'r' :: 'u' :: 'e' :: rest => some (.bool true, rest)
    | 'f' :: 'a' :: 'l' :: 's' :: 'e' :: rest => some (.bool false, rest)
    | 'n' :: 'u' :: 'l' :: 'l' :: rest => some (.null, rest)
    | t =>
      match parseNumber t with
      | some (n, r) => some (.num n, r)
      | none => none
/-- The members of a JSON object after its opening brace, up to the closing brace. -/
def parseMembers : Nat → JSString → List (JSString × JSValue) → Option (JSValue × JSString)
  | 0, _, _ => none
  | fuel + 1, s, acc =>
    match skipWhitespace s with
    | '"' :: rest =>
      match parseStringBody rest with
      | some (k, r1) =>
        match skipWhitespace r1 with
        | ':' :: r2 =>
          match parseValue fuel r2 with
          | some (v, r3) =>
            match skipWhitespace r3 with
            | ',' :: r4 => parseMembers fuel r4 (setField acc k v)
            | '\x7d' :: r4 => some (.obj (setField acc k v), r4)
            | _ => none
          | none => none
        | _ => none
      | none => none
    | _ => none
/-- The elements of a JSON array after its opening bracket, up to the closing bracket. -/
def parseElements : Nat → JSString → List JSValue → Option (JSValue × JSString)
  | 0, _, _ => none
  | fuel + 1, s, acc =>
    match parseValue fuel s with
    | some (v, r) =>
      match skipWhitespace r with
      | ',' :: r1 => parseElements fuel r1 (acc ++ [v])
      | ']' :: r1 => some (.arr (acc ++ [v]), r1)
      | _ => none
    | none => none
end

/-- The built-in `JSON.parse(text)`: `none` when it throws a `SyntaxError`. -/
def JSON.parse (text : JSString) : Option JSValue :=
  match parseValue (2 * text.length + 2) text with
  | some (v, rest) => if skipWhitespace rest = [] then some v else none
  | none => none

/-- A hexadecimal digit in lower case. -/
def hexChar (n : Nat) : Char :=
  if n < 10 then Char.ofNat ('0'.toNat + n) else Char.ofNat ('a'.toNat + (n - 10))

/-- The escape of one unit inside a JSON string literal, as `JSON.stringify` writes it. -/
def quoteUnit (c : Char) : JSString :=
  if c = '"' then ['\\', '"']
  else if c = '\\' then ['\\', '\\']
  else if c.toNat = 8 then ['\\', 'b']
  else if c.toNat = 12 then ['\\', 'f']
  else if c = '\n' then ['\\', 'n']
  else if c = '\r' then ['\\', 'r']
  else if c = '\t' then ['\\', 't']
  else if c.toNat < 32 then ['\\', 'u', '0', '0', hexChar (c.toNat / 16), hexChar (c.toNat % 16)]
  else [c]

/-- A string as a JSON string literal. -/
def quoteString (s : JSString) : JSString :=
  '"' :: (s.map quoteUnit).flatten ++ ['"']

/-- A string or `null` as JSON text. -/
def quoteNullable : Option JSString → JSString
  | some s => quoteString s
  | none => "null".toList

/-! ## Messages -/

/-- A chat message: the object built by `ChatContext.sendMessage` (lines 103-115) and a row of
the `messages` table.  `fileSize` and `duration` are never set by the object literal. -/
structure Message where
  id : JSString
  senderId : JSString
  recipientId : Option JSString
  groupId : Option JSString
  content : JSString
  messageType : JSString
  filePath : Option JSString
  fileSize : Option Nat
  duration : Option Nat
  status : JSString
  timestamp : Nat
  isProximityBased : Nat
  proximityLocation : Option JSString
deriving DecidableEq, Repr

/-- The objects handed to `BluetoothService.sendMessage`: the message object of
`ChatContext.sendMessage`, or the object `{ id: queueItem.messageId }` of `processMessageQueue`. -/
inductive Payload where
  | message (m : Message) : Payload
  | idOnly (id : JSString) : Payload
deriving DecidableEq, Repr

/-- The property `message.id`. -/
def Payload.id : Payload → JSString
  | .message m => m.id
  | .idOnly id => id

/-- One `"key":value` member of a serialized object. -/
def member (key : String) (value : JSString) : JSString :=
  quoteString key.toList ++ ':' :: value

/-- The built-in `JSON.stringify` on the objects this program serializes: the own properties in
creation order, no whitespace. -/
def JSON.stringify : Payload → JSString
  | .message m =>
    '\x7b' :: member "id" (quoteString m.id) ++ ',' ::
      member "senderId" (quoteString m.senderId) ++ ',' ::
      member "recipientId" (quoteNullable m.recipientId) ++ ',' ::
      member "groupId" (quoteNullable m.groupId) ++ ',' ::
      member "content" (quoteString m.content) ++ ',' ::
      member "messageType" (quoteString m.messageType) ++ ',' ::
      member "filePath" (quoteNullable m.filePath) ++ ',' ::
      member "status" (quoteString m.status) ++ ',' ::
      member "timestamp" (Nat.toDigits 10 m.timestamp) ++ ',' ::
      member "isProximityBased" (Nat.toDigits 10 m.isProximityBased) ++ ',' ::
      member "proximityLocation" (quoteNullable m.proximityLocation) ++ ['\x7d']
  | .idOnly id => '\x7b' :: member "id" (quoteString id) ++ ['\x7d']

/-- A string or `null` as a JavaScript value. -/
def nullable : Option JSString → JSValue
  | some s => .str s
  | none => .null

/-- The message object as a JavaScript value. -/
def Payload.toJS : Payload → JSValue
  | .message m =>
    .obj [("id".toList, .str m.id), ("senderId".toList, .str m.senderId),
      ("recipientId".toList, nullable m.recipientId), ("groupId".toList, nullable m.groupId),
      ("content".toList, .str m.content), ("messageType".toList, .str m.messageType),
      ("filePath".toList, nullable m.filePath), ("status".toList, .str m.status),
      ("timestamp".toList, .num m.timestamp),
      ("isProximityBased".toList, .num m.isProximityBased),
      ("proximityLocation".toList, nullable m.proximityLocation)]
  | .idOnly id => .obj [("id".toList, .str id)]

/-! ## Registries, store and world -/

/-- A device address, the key of both registries. -/
abbrev DeviceId := JSString

/-- A JavaScript `Map`: the entries in insertion order, one per key. -/
abbrev JSMap (K V : Type) := List (K × V)

/-- The `Map` method `get`. -/
def mapGet {K V : Type} [DecidableEq K] : JSMap K V → K → Option V
  | [], _ => none
  | (k1, v) :: rest, k => if k1 = k then some v else mapGet rest k

/-- The `Map` method `set`: an existing key keeps its place and takes the new value. -/
def mapSet {K V : Type} [DecidableEq K] : JSMap K V → K → V → JSMap K V
  | [], k, v => [(k, v)]
  | (k1, v1) :: rest, k, v => if k1 = k then (k, v) :: rest else (k1, v1) :: mapSet rest k v

/-- The `Map` method `delete`. -/
def mapDelete {K V : Type} [DecidableEq K] (m : JSMap K V) (k : K) : JSMap K V :=
  m.filter (fun e => e.1 ≠ k)

/-- The advertisement event handed to `handleDeviceDiscovered`; `name` may be absent. -/
structure Peripheral where
  id : DeviceId
  name : Option JSString
  rssi : Int
deriving DecidableEq, Repr

/-- An entry of `discoveredDevices` (lines 69-75). -/
structure DiscoveredDevice where
  userId : JSString
  username : JSString
  profilePic : Option JSString
  deviceAddress : DeviceId
  distance : JSNumber
  rssi : Int
  lastSeen : Nat
deriving DecidableEq

/-- The connected-device handle returned by the radio library. -/
structure Device where
  address : DeviceId
deriving DecidableEq, Repr

/-- The contact object handed to `saveContact` (lines 78-84). -/
structure Contact where
  id : JSString
  name : JSString
  profilePic : Option JSString
  deviceAddress : DeviceId
  distance : JSNumber
deriving DecidableEq

/-- A row of the `contacts` table. -/
structure ContactRow where
  id : JSString
  userId : JSString
  contactId : JSString
  contactName : JSString
  contactProfilePic : Option JSString
  deviceAddress : DeviceId
  lastSeen : Nat
  isOnline : Nat
  distance : Option JSNumber
deriving DecidableEq

/-- A row of the `message_queue` table. -/
structure QueueRow where
  id : JSString
  messageId : JSString
  recipientId : Option JSString
  attempts : Nat
  lastAttempt : Nat
deriving DecidableEq, Repr

/-- The tables of `database.js` used by the transport, rows in insertion order. -/
structure Database where
  contacts : List ContactRow
  messages : List Message
  message_queue : List QueueRow
deriving DecidableEq

/-- The store functions of `database.js` the transport calls. -/
inductive StoreCall where
  | saveContact | updateContactStatus | saveMessage | getMessages | updateMessageStatus
  | addToMessageQueue | getMessageQueue | updateQueueAttempt | removeFromQueue
  | getContacts | getGroups
deriving DecidableEq, Repr

/-- The calls made to the radio libraries. -/
inductive RadioCall where
  | write (device : DeviceId) (frame : JSString) : RadioCall
  | setDeviceName (name : JSString) : RadioCall
  | connectToDevice (device : DeviceId) : RadioCall
  | onDataReceived (device : DeviceId) : RadioCall
  | disconnect (device : DeviceId) : RadioCall
  | scan : RadioCall
deriving DecidableEq, Repr

/-- A rejected promise or thrown exception. -/
inductive JSError where
  | typeError | sqlError
deriving DecidableEq, Repr

/-- The logged-in user of `AuthContext`. -/
structure User where
  id : JSString
  username : JSString
deriving DecidableEq, Repr

/-- A row of the `groups` table as held in the `groups` state; only `id` and `name` are read
by the transport. -/
structure GroupRow where
  id : JSString
  name : JSString
deriving DecidableEq, Repr

/-- The React state of `ChatProvider` as one render sees it (`ChatContext.js`, lines 10-15).
Every render creates its own closure `handleMessageReceived` over these values. -/
structure ChatState where
  user : Option User
  contacts : List ContactRow
  groups : List GroupRow
  messages : JSMap JSString (List Message)
  activeChat : Option JSString
  isInApp : Bool

/-- The fields of the `BluetoothService` singleton (constructor, lines 13-19, and the
callback slot of `setMessageReceivedCallback`).  The slot `onMessageReceived` holds the
closure `handleMessageReceived` that was registered, given by the render state it captured;
`none` stands for `undefined`. -/
structure BluetoothService where
  discoveredDevices : JSMap DeviceId DiscoveredDevice
  connectedDevices : JSMap DeviceId Device
  isScanning : Bool
  userId : Option JSString
  onMessageReceived : Option ChatState

/-- The calls made to `NotificationService` (`notifications.js`, lines 57-71). -/
inductive NotifierCall where
  | showMessageNotification (senderName messageContent chatId : JSString) : NotifierCall
  | showGroupMessageNotification (groupName senderName messageContent groupId : JSString) :
      NotifierCall
deriving DecidableEq, Repr

/-- Everything the transport can observe or change: the service singleton, the current state
of the provider (`chat`, the state of its latest render), the database, and the traces of
store calls, radio calls, callback invocations and notifier calls. -/
structure World where
  bt : BluetoothService
  chat : ChatState
  db : Database
  storeCalls : List StoreCall
  radio : List RadioCall
  received : List (DeviceId × JSValue)
  notifications : List NotifierCall

/-- The world after `new BluetoothService()` with an empty database and no user. -/
def World.initial : World :=
  { bt := { discoveredDevices := [], connectedDevices := [], isScanning := false,
            userId := none, onMessageReceived := none }
    chat := { user := none, contacts := [], groups := [], messages := [], activeChat := none,
              isInApp := true }
    db := { contacts := [], messages := [], message_queue := [] }
    storeCalls := [], radio := [], received := [], notifications := [] }

/-! ## Store functions (`database.js`) -/

/-- Function `saveContact(userId, contact)`: `INSERT OR REPLACE` keyed by the generated row
id `contactId`; `now` is `Date.now()`. -/
def saveContact (db : Database) (contactId : JSString) (now : Nat) (userId : JSString)
    (contact : Contact) : Database :=
  { db with
    contacts := db.contacts.filter (fun r => r.id ≠ contactId) ++
      [{ id := contactId, userId := userId, contactId := contact.id,
         contactName := contact.name, contactProfilePic := contact.profilePic,
         deviceAddress := contact.deviceAddress, lastSeen := now, isOnline := 1,
         distance := some contact.distance }] }

/-- Function `saveMessage(message)`: a plain `INSERT`, rejected (`none`) when the primary key
`id` is already present. -/
def saveMessage (db : Database) (message : Message) : Option Database :=
  if db.messages.any (fun r => r.id = message.id) then none
  else
    some { db with
      messages := db.messages ++
        [{ message with isProximityBased := if message.isProximityBased ≠ 0 then 1 else 0 }] }

/-- Insert a row into a list ordered by `timestamp`, after the rows that are not later. -/
def insertByTimestamp (m : Message) : List Message → List Message
  | [] => [m]
  | r :: rs => if m.timestamp < r.timestamp then m :: r :: rs else r :: insertByTimestamp m rs

/-- The clause `ORDER BY timestamp ASC`; rows with equal timestamps keep insertion order. -/
def orderByTimestamp (rows : List Message) : List Message :=
  rows.foldl (fun acc m => insertByTimestamp m acc) []

/-- Function `getMessages(chatId, isGroup, currentLocation)`; a comparison with `NULL`
selects nothing. -/
def getMessages (db : Database) (chatId : Option JSString) (isGroup : Bool)
    (currentLocation : Option JSString) : List Message :=
  match chatId with
  | none => []
  | some chat =>
    if isGroup then
      if truthy currentLocation then
        orderByTimestamp (db.messages.filter (fun r =>
          r.groupId = some chat ∧
            (r.isProximityBased = 0 ∨ r.proximityLocation = currentLocation)))
      else
        orderByTimestamp (db.messages.filter (fun r =>
          r.groupId = some chat ∧ r.isProximityBased = 0))
    else
      orderByTimestamp (db.messages.filter (fun r =>
        r.senderId = chat ∨ r.recipientId = some chat))

/-- Function `updateMessageStatus(messageId, status)`. -/
def updateMessageStatus (db : Database) (messageId status : JSString) : Database :=
  { db with
    messages := db.messages.map (fun r => if r.id = messageId then { r with status := status } else r) }

/-- Function `addToMessageQueue(messageId, recipientId)`: a plain `INSERT` with `attempts = 0`,
rejected (`none`) when the generated row id `queueId` is already present; `now` is
`Date.now()`. -/
def addToMessageQueue (db : Database) (queueId : JSString) (now : Nat) (messageId : JSString)
    (recipientId : Option JSString) : Option Database :=
  if db.message_queue.any (fun r => r.id = queueId) then none
  else
    some { db with
      message_queue := db.message_queue ++
        [{ id := queueId, messageId := messageId, recipientId := recipientId, attempts := 0,
           lastAttempt := now }] }

/-! ## Service methods (`bluetooth.js`) -/

/-- Method `setMessageReceivedCallback(callback)`; `callback` is a closure
`handleMessageReceived`, given by the render state it captured. -/
def setMessageReceivedCallback (w : World) (callback : ChatState) : World :=
  { w with bt := { w.bt with onMessageReceived := some callback } }

/-- Method `setDeviceName(userId, username)`: the advertisement string is handed to the radio;
a rejection is caught and logged. -/
def setDeviceName (w : World) (userId username : JSString) : World :=
  { w with radio := w.radio ++ [.setDeviceName (deviceName userId username)] }

/-- The inputs of one `handleDeviceDiscovered` call: `Date.now()` at line 74, and the
`generateId()` and `Date.now()` of `saveContact`. -/
structure DiscoveryEnv where
  now : Nat
  contactRowId : JSString
  contactTime : Nat

/-- Method `handleDeviceDiscovered(peripheral)`. -/
def handleDeviceDiscovered (rpow : JSNumber → JSNumber → JSNumber) (env : DiscoveryEnv)
    (w : World) (peripheral : Peripheral) : World :=
  if !truthy peripheral.name || !startsWith (peripheral.name.getD []) "BCHAT_".toList then w
  else
    let name := peripheral.name.getD []
    let distance := calculateDistance rpow peripheral.rssi
    let deviceData := parseDeviceName name
    let w1 : World :=
      { w with
        bt := { w.bt with
          discoveredDevices := mapSet w.bt.discoveredDevices peripheral.id
            { userId := deviceData.userId, username := deviceData.username,
              profilePic := deviceData.profilePic, deviceAddress := peripheral.id,
              distance := distance, rssi := peripheral.rssi, lastSeen := env.now } } }
    match w.bt.userId with
    | some (c :: cs) =>
      { w1 with
        storeCalls := w1.storeCalls ++ [.saveContact]
        db := saveContact w1.db env.contactRowId env.contactTime (c :: cs)
          { id := deviceData.userId, name := deviceData.username,
            profilePic := deviceData.profilePic, deviceAddress := peripheral.id,
            distance := distance } }
    | _ => w1

/-- The inputs of one `BluetoothService.sendMessage` call: the `generateId()` and `Date.now()`
of `addToMessageQueue`, and whether the `k`-th `device.write` of the call resolves. -/
structure SendEnv where
  queueId : JSString
  queueTime : Nat
  writeOk : Nat → Bool

/-- The call `await addToMessageQueue(message.id, recipientId)` followed by `return false`
(lines 170-171 and 185-186); a rejection propagates to the caller. -/
def enqueue (env : SendEnv) (w : World) (recipientId : Option JSString) (message : Payload) :
    World × Except JSError Bool :=
  let w1 : World := { w with storeCalls := w.storeCalls ++ [.addToMessageQueue] }
  match addToMessageQueue w.db env.queueId env.queueTime message.id recipientId with
  | some db => ({ w1 with db := db }, .ok false)
  | none => (w1, .error .sqlError)

/-- The loop `for (const chunk of chunks) await device.write(chunk)`, from the `k`-th write on:
the radio trace with the frames written, and whether every write resolved. -/
def writeChunks (writeOk : Nat → Bool) (device : DeviceId) :
    Nat → List JSString → List RadioCall → List RadioCall × Bool
  | _, [], radio => (radio, true)
  | k, chunk :: rest, radio =>
    if writeOk k then writeChunks writeOk device (k + 1) rest (radio ++ [.write device chunk])
    else (radio, false)

/-- Method `sendMessage(recipientId, message)` of the service: the returned boolean, or the
rejection. -/
def BluetoothService.sendMessage (env : SendEnv) (w : World) (recipientId : Option JSString)
    (message : Payload) : World × Except JSError Bool :=
  match recipientId.bind (mapGet w.bt.connectedDevices) with
  | none => enqueue env w recipientId message
  | some device =>
    let messageData := JSON.stringify message
    let chunks := chunkMessage messageData
    match writeChunks env.writeOk device.address 0 chunks w.radio with
    | (radio, true) => ({ w with radio := radio }, .ok true)
    | (radio, false) => enqueue env { w with radio := radio } recipientId message

/-- Method `handleDataReceived(deviceId, data)`, with `data.data` the text received: the text
is parsed on its own; a `SyntaxError` is caught and logged. -/
def handleDataReceived (w : World) (deviceId : DeviceId) (data : JSString) : World :=
  match JSON.parse data with
  | some message =>
    if w.bt.onMessageReceived.isSome then
      { w with received := w.received ++ [(deviceId, message)] }
    else w
  | none => w

/-! ## Provider functions (`ChatContext.js`) -/

/-- The property key `[chatId]` of the `messages` state. -/
def chatKey : Option JSString → JSString
  | some chat => chat
  | none => "null".toList

/-- Function `loadMessages(chatId, isGroup)`: `getMessages(chatId, isGroup)` with no current
location, stored under `chatId` in the `messages` state. -/
def loadMessages (w : World) (chatId : Option JSString) (isGroup : Bool) : World :=
  { w with
    storeCalls := w.storeCalls ++ [.getMessages]
    chat := { w.chat with
      messages := mapSet w.chat.messages (chatKey chatId) (getMessages w.db chatId isGroup none) } }

/-- The result object of `ChatContext.sendMessage`. -/
inductive SendResult where
  | success (messageId : JSString) : SendResult
  | failure (error : JSError) : SendResult
deriving DecidableEq, Repr

/-- The inputs of one `ChatContext.sendMessage` call: its `generateId()` and `Date.now()`, and
the inputs of the service call. -/
structure ChatEnv where
  messageId : JSString
  timestamp : Nat
  send : SendEnv

/-- The message object built at lines 103-115. -/
def buildMessage (env : ChatEnv) (user : User) (recipientId : Option JSString)
    (content messageType : JSString) (filePath groupId : Option JSString) : Message :=
  { id := env.messageId
    senderId := user.id
    recipientId := if truthy groupId then none else recipientId
    groupId := groupId
    content := content
    messageType := messageType
    filePath := filePath
    fileSize := none
    duration := none
    status := "sent".toList
    timestamp := env.timestamp
    isProximityBased := if truthy groupId then 1 else 0
    proximityLocation := if truthy groupId then some "location_1".toList else none }

/-- Function `sendMessage(recipientId, content, messageType, filePath, groupId)` of the
provider. -/
def ChatContext.sendMessage (env : ChatEnv) (w : World) (recipientId : Option JSString)
    (content messageType : JSString) (filePath groupId : Option JSString) :
    World × SendResult :=
  match w.chat.user with
  | none => (w, .failure .typeError)
  | some user =>
    let message := buildMessage env user recipientId content messageType filePath groupId
    let w1 : World := { w with storeCalls := w.storeCalls ++ [.saveMessage] }
    match saveMessage w.db message with
    | none => (w1, .failure .sqlError)
    | some db =>
      let w2 : World := { w1 with db := db }
      let w3 := if truthy groupId then loadMessages w2 groupId true
                else loadMessages w2 recipientId false
      match BluetoothService.sendMessage env.send w3 recipientId (.message message) with
      | (w4, .error e) => (w4, .failure e)
      | (w4, .ok sent) =>
        if sent then
          ({ w4 with
             storeCalls := w4.storeCalls ++ [.updateMessageStatus]
             db := updateMessageStatus w4.db env.messageId "delivered".toList },
           .success env.messageId)
        else (w4, .success env.messageId)

/-! ## Queue and contact store functions (`database.js`, lines 166-171 and 302-323) -/

/-- Insert a row into a list ordered by `key`, after the rows whose key is not larger. -/
def insertBy {α : Type} (key : α → Nat) (x : α) : List α → List α
  | [] => [x]
  | r :: rs => if key x < key r then x :: r :: rs else r :: insertBy key x rs

/-- An `ORDER BY key ASC` clause; rows with equal keys keep insertion order. -/
def orderBy {α : Type} (key : α → Nat) (rows : List α) : List α :=
  rows.foldl (fun acc x => insertBy key x acc) []

/-- Function `getMessageQueue()`: the rows with `attempts < 10`, by `lastAttempt` ascending. -/
def getMessageQueue (db : Database) : List QueueRow :=
  orderBy (fun r => r.lastAttempt) (db.message_queue.filter (fun r => r.attempts < 10))

/-- Function `updateQueueAttempt(queueId)`; `now` is `Date.now()`. -/
def updateQueueAttempt (db : Database) (now : Nat) (queueId : JSString) : Database :=
  { db with
    message_queue := db.message_queue.map (fun r =>
      if r.id = queueId then { r with attempts := r.attempts + 1, lastAttempt := now } else r) }

/-- Function `removeFromQueue(queueId)`. -/
def removeFromQueue (db : Database) (queueId : JSString) : Database :=
  { db with message_queue := db.message_queue.filter (fun r => r.id ≠ queueId) }

/-- Function `updateContactStatus(contactId, isOnline, distance)`: the rows whose `contactId`
column equals the first argument are updated; `now` is `Date.now()`. -/
def updateContactStatus (db : Database) (now : Nat) (contactId : JSString) (isOnline : Bool)
    (distance : Option JSNumber) : Database :=
  { db with
    contacts := db.contacts.map (fun r =>
      if r.contactId = contactId then
        { r with isOnline := if isOnline then 1 else 0, distance := distance, lastSeen := now }
      else r) }

/-! ## Connection, disconnection and queue sweep (`bluetooth.js`, lines 93-98, 132-148, 241-259) -/

/-- Method `getDiscoveredDevices()`: the values of the registry. -/
def getDiscoveredDevices (w : World) : List DiscoveredDevice :=
  w.bt.discoveredDevices.map (fun e => e.2)

/-- Method `handleDeviceDisconnected(peripheral)` with `address` the field
`peripheral.peripheral`; `now` is the `Date.now()` of `updateContactStatus`. -/
def handleDeviceDisconnected (now : Nat) (w : World) (address : DeviceId) : World :=
  let w1 : World :=
    { w with bt := { w.bt with connectedDevices := mapDelete w.bt.connectedDevices address } }
  if truthy w.bt.userId then
    { w1 with
      storeCalls := w1.storeCalls ++ [.updateContactStatus]
      db := updateContactStatus w1.db now address false none }
  else w1

/-- Method `connectToDevice(deviceId)`: `outcome` is the device the radio library resolves with,
or `none` when it rejects; `listenerOk` tells whether the call `device.onDataReceived(...)` of
line 141 returns (`false`: it throws); `now` is the `Date.now()` of `updateContactStatus`.
One `try` spans lines 134-143, so a throw at line 141 also reaches the `catch`, which returns
`null`; lines 135-139 have run by then and nothing undoes them. -/
def connectToDevice (now : Nat) (outcome : Option Device) (listenerOk : Bool) (w : World)
    (deviceId : DeviceId) : World × Option Device :=
  let w0 : World := { w with radio := w.radio ++ [.connectToDevice deviceId] }
  match outcome with
  | none => (w0, none)
  | some device =>
    let w1 : World :=
      { w0 with bt := { w0.bt with connectedDevices := mapSet w0.bt.connectedDevices deviceId device } }
    let w2 : World :=
      if truthy w1.bt.userId then
        { w1 with
          storeCalls := w1.storeCalls ++ [.updateContactStatus]
          db := updateContactStatus w1.db now deviceId true
            ((mapGet w1.bt.discoveredDevices deviceId).map (fun d => d.distance)) }
      else w1
    let w3 : World := { w2 with radio := w2.radio ++ [.onDataReceived deviceId] }
    if listenerOk then (w3, some device) else (w3, none)

/-- The loop `for (const queueItem of queue)` of `processMessageQueue`, from the `k`-th item on;
`env k` holds the inputs of the `sendMessage` call made for item `k`.  A rejection of that call
is caught and logged. -/
def sweepLoop (env : Nat → SendEnv) : Nat → List QueueRow → World → World
  | _, [], w => w
  | k, queueItem :: rest, w =>
    match queueItem.recipientId.bind (mapGet w.bt.connectedDevices) with
    | some _ =>
      sweepLoop env (k + 1) rest
        (BluetoothService.sendMessage (env k) w queueItem.recipientId
          (.idOnly queueItem.messageId)).1
    | none => sweepLoop env (k + 1) rest w

/-- Method `processMessageQueue()`. -/
def processMessageQueue (env : Nat → SendEnv) (w : World) : World :=
  sweepLoop env 0 (getMessageQueue w.db)
    { w with storeCalls := w.storeCalls ++ [.getMessageQueue] }

/-! ## Discovery runs -/

/-- The guard of `handleDeviceDiscovered`, line 64, negated: the peripheral has a name that
starts with `'BCHAT_'`. -/
def isPeer (peripheral : Peripheral) : Bool :=
  truthy peripheral.name && startsWith (peripheral.name.getD []) "BCHAT_".toList

/-- The registry entry written at lines 69-75 for an advertisement. -/
def discoveryEntry (rpow : JSNumber → JSNumber → JSNumber) (env : DiscoveryEnv)
    (peripheral : Peripheral) : DiscoveredDevice :=
  { userId := (parseDeviceName (peripheral.name.getD [])).userId
    username := (parseDeviceName (peripheral.name.getD [])).username
    profilePic := (parseDeviceName (peripheral.name.getD [])).profilePic
    deviceAddress := peripheral.id
    distance := calculateDistance rpow peripheral.rssi
    rssi := peripheral.rssi
    lastSeen := env.now }

/-- A sequence of advertisement events handled one after the other. -/
def discover (rpow : JSNumber → JSNumber → JSNumber) (events : List (DiscoveryEnv × Peripheral))
    (w : World) : World :=
  events.foldl (fun w e => handleDeviceDiscovered rpow e.1 w e.2) w

/-- The reading of the specification: the most recent event of the sequence that comes from
address `a` and carries the prefix. -/
def latestAdvert : List (DiscoveryEnv × Peripheral) → DeviceId →
    Option (DiscoveryEnv × Peripheral)
  | [], _ => none
  | e :: es, a =>
    match latestAdvert es a with
    | some x => some x
    | none => if isPeer e.2 = true ∧ e.2.id = a then some e else none

/-! ## Scanning and disconnecting (`bluetooth.js`, lines 40-51 and 150-164) -/

/-- Method `startDiscovery()`: `scanOk` tells whether `BleManager.scan` resolves. -/
def startDiscovery (scanOk : Bool) (w : World) : World :=
  if w.bt.isScanning then w
  else
    let w1 : World :=
      { w with bt := { w.bt with isScanning := true }, radio := w.radio ++ [.scan] }
    if scanOk then w1 else { w1 with bt := { w1.bt with isScanning := false } }

/-- Method `disconnectDevice(deviceId)`: `disconnectOk` tells whether `device.disconnect()`
resolves (a rejection is caught before the entry is deleted); `now` is the `Date.now()` of
`updateContactStatus`. -/
def disconnectDevice (now : Nat) (disconnectOk : Bool) (w : World) (deviceId : DeviceId) :
    World :=
  match mapGet w.bt.connectedDevices deviceId with
  | none => w
  | some device =>
    let w0 : World := { w with radio := w.radio ++ [.disconnect device.address] }
    if disconnectOk then
      let w1 : World :=
        { w0 with bt := { w0.bt with connectedDevices := mapDelete w0.bt.connectedDevices deviceId } }
      if truthy w1.bt.userId then
        { w1 with
          storeCalls := w1.storeCalls ++ [.updateContactStatus]
          db := updateContactStatus w1.db now deviceId false none }
      else w1
    else w0

/-! ## Inbound messages (`ChatContext.js`, lines 62-98) -/

/-- The notifier call of lines 68-84 for a message, with the labels looked up in the `groups`
and `contacts` of the render state `chat` the closure captured. -/
def notifierCall (chat : ChatState) (message : Message) : NotifierCall :=
  match message.groupId with
  | some (c :: cs) =>
    .showGroupMessageNotification
      (orElse ((chat.groups.find? (fun g => g.id = c :: cs)).map (fun g => g.name)) id
        "Group".toList)
      (orElse ((chat.contacts.find? (fun r => r.contactId = message.senderId)).map
        (fun r => r.contactName)) id "Someone".toList)
      message.content (c :: cs)
  | _ =>
    .showMessageNotification
      (orElse ((chat.contacts.find? (fun r => r.contactId = message.senderId)).map
        (fun r => r.contactName)) id "Someone".toList)
      message.content message.senderId

/-- Function `handleMessageReceived(deviceId, message)` for a decoded message object.
`captured` is the render state the closure was created in: `activeChat`, `isInApp`, `groups`
and `contacts` are constants of that render, read from `captured` and not from the current
state `w.chat`.  The store functions act on the database, and `loadMessages` updates the
`messages` state through the functional form `setMessages(prev => ...)`, so both act on the
current world.  A rejection of `saveMessage` is caught and logged. -/
def handleMessageReceived (captured : ChatState) (w : World) (_deviceId : DeviceId)
    (message : Message) : World :=
  let w1 : World := { w with storeCalls := w.storeCalls ++ [.saveMessage] }
  match saveMessage w.db message with
  | none => w1
  | some db =>
    let w2 : World := { w1 with db := db }
    let w3 : World :=
      if captured.activeChat ≠ some message.senderId ∧ captured.activeChat ≠ message.groupId then
        if !captured.isInApp then
          { w2 with notifications := w2.notifications ++ [notifierCall captured message] }
        else w2
      else w2
    let w4 := if truthy message.groupId then loadMessages w3 message.groupId true
              else loadMessages w3 (some message.senderId) false
    { w4 with
      storeCalls := w4.storeCalls ++ [.updateMessageStatus]
      db := updateMessageStatus w4.db message.id "delivered".toList }

/-- The call `this.onMessageReceived(deviceId, message)` of `handleDataReceived`, line 234, for
a decoded message object: the closure in the slot runs, whatever the provider state is by
now. -/
def invokeCallback (w : World) (deviceId : DeviceId) (message : Message) : World :=
  match w.bt.onMessageReceived with
  | some captured => handleMessageReceived captured w deviceId message
  | none => w

/-! ## Renders of the provider (`ChatContext.js`, lines 10-60) -/

/-- The state setter `setActiveChat(chatId)` (called by `ChatScreen`, lines 22 and 25): the
next render sees the new value; the callback slot of the service is not touched. -/
def setActiveChat (w : World) (chatId : Option JSString) : World :=
  { w with chat := { w.chat with activeChat := chatId } }

/-- The state setter `setIsInApp(value)` the provider hands out (line 173): the next render
sees the new value; the callback slot of the service is not touched. -/
def setIsInApp (w : World) (value : Bool) : World :=
  { w with chat := { w.chat with isInApp := value } }

/-- The calls `setUser(userData)` and `BluetoothService.initialize(userData.id)` of
`AuthContext.js` (lines 19-20, 39-40, 56-57), as far as this state goes: the next render sees
the user, and the service remembers the user id (`bluetooth.js`, line 22). -/
def login (w : World) (user : User) : World :=
  { w with bt := { w.bt with userId := some user.id }, chat := { w.chat with user := some user } }

/-- The inputs of one run of the effect of lines 17-25: the rows `getContacts` and `getGroups`
resolve with (`none`: the promise rejects, which `loadContacts` and `loadGroups` catch and log)
and whether `BleManager.scan` resolves. -/
structure EffectEnv where
  contactsList : Option (List ContactRow)
  groupsList : Option (List GroupRow)
  scanOk : Bool

/-- The effect `useEffect(..., [user])` of lines 17-25, run after a render in which `user`
changed (and after the first render).  With a user it calls `loadContacts`, `loadGroups` and
`startBluetoothDiscovery` and registers the closure `handleMessageReceived` of that render,
which captured the state `w.chat` as it was before those loads resolve.  It is the only call
of `setMessageReceivedCallback`, and no other state is among its dependencies.  The later runs
of `startDiscovery` from `setInterval` are further calls of `startDiscovery`. -/
def userEffect (env : EffectEnv) (w : World) : World :=
  match w.chat.user with
  | none => w
  | some _ =>
    let captured := w.chat
    let w1 : World :=
      { w with
        storeCalls := w.storeCalls ++ [.getContacts]
        chat := { w.chat with contacts := env.contactsList.getD w.chat.contacts } }
    let w2 : World :=
      { w1 with
        storeCalls := w1.storeCalls ++ [.getGroups]
        chat := { w1.chat with groups := env.groupsList.getD w1.chat.groups } }
    let w3 := startDiscovery env.scanOk w2
    setMessageReceivedCallback w3 captured

/-! ## Executions -/

/-- One of the operations that touch stored messages: a send through the provider, an inbound
message handled by a closure `handleMessageReceived` (given by the render state `callback` it
captured), or a queue sweep, each with its inputs. -/
inductive Operation where
  | send (env : ChatEnv) (recipientId : Option JSString) (content messageType : JSString)
      (filePath groupId : Option JSString) : Operation
  | receive (callback : ChatState) (deviceId : DeviceId) (message : Message) : Operation
  | sweep (env : Nat → SendEnv) : Operation

/-- The world after one operation. -/
def Operation.run : Operation → World → World
  | .send env recipientId content messageType filePath groupId, w =>
    (ChatContext.sendMessage env w recipientId content messageType filePath groupId).1
  | .receive callback deviceId message, w => handleMessageReceived callback w deviceId message
  | .sweep env, w => processMessageQueue env w

/-- The world after a sequence of operations. -/
def runAll (ops : List Operation) (w : World) : World :=
  ops.foldl (fun w op => op.run w) w

/-- The stored status of message `id`: the `status` column of the row with that primary key. -/
def statusOf (db : Database) (id : JSString) : Option JSString :=
  (db.messages.find? (fun r => r.id = id)).map (fun r => r.status)

/-- The frames written to `device` in a radio trace, in order. -/
def framesTo (device : DeviceId) : List RadioCall → List JSString
  | [] => []
  | .write d frame :: rest => if d = device then frame :: framesTo device rest
                              else framesTo device rest
  | _ :: rest => framesTo device rest

/-- Lines 127-131 of the provider's `sendMessage`: the status update after the service call
resolved with `true`, and the result object. -/
def finishSend (env : ChatEnv) (out : World × Except JSError Bool) : World × SendResult :=
  match out with
  | (w4, .error e) => (w4, .failure e)
  | (w4, .ok sent) =>
    if sent then
      ({ w4 with
         storeCalls := w4.storeCalls ++ [.updateMessageStatus]
         db := updateMessageStatus w4.db env.messageId "delivered".toList },
       .success env.messageId)
    else (w4, .success env.messageId)

/-- The row update of `updateMessageStatus(id, 'delivered')`. -/
def deliver (id : JSString) (r : Message) : Message :=
  if r.id = id then { r with status := "delivered".toList } else r

/-! ## Sample inputs -/

/-- The state of the provider in the render in which user `u1` appeared: no chat open, the
application in the foreground, no contacts or groups loaded yet. -/
def sampleChat : ChatState :=
  { World.initial.chat with user := some { id := "u1".toList, username := "alice".toList } }

/-- A world with user `u1` logged in, the closure of that render registered as callback, an
empty database and no connected device. -/
def sampleWorld : World :=
  { World.initial with
    bt := { World.initial.bt with userId := some "u1".toList, onMessageReceived := some sampleChat }
    chat := sampleChat }

/-- Inputs of one send: message id `m1` at time 100, queue row id `q1` at time 101, every radio
write resolving. -/
def sampleEnv : ChatEnv :=
  { messageId := "m1".toList, timestamp := 100
    send := { queueId := "q1".toList, queueTime := 101, writeOk := fun _ => true } }

/-- A direct message from `u1` to `u2` whose content is 600 letters `a`; its serialization
holds 789 units, more than one frame. -/
def longMessage : Message :=
  buildMessage sampleEnv { id := "u1".toList, username := "alice".toList } (some "u2".toList)
    (List.replicate 600 'a') "text".toList none none

/-- The world `sampleWorld` after `connectToDevice('u2')` resolved at time 50. -/
def connectedWorld : World :=
  (connectToDevice 50 (some { address := "u2".toList }) true sampleWorld "u2".toList).1

/-- The inputs `sampleEnv` with every radio write rejected. -/
def failingEnv : ChatEnv :=
  { sampleEnv with send := { sampleEnv.send with writeOk := fun _ => false } }

/-- The world `sampleWorld` after `sendMessage('u2', 'hi')` while `u2` is not connected. -/
def offlineSent : World :=
  (ChatContext.sendMessage sampleEnv sampleWorld (some "u2".toList) "hi".toList "text".toList
    none none).1

/-- The world `offlineSent` after `connectToDevice('u2')` resolved at time 150. -/
def reconnected : World :=
  (connectToDevice 150 (some { address := "u2".toList }) true offlineSent "u2".toList).1

/-- Inputs of a sweep: queue row id `q2` at time 200, every radio write resolving. -/
def sweepOk : Nat → SendEnv :=
  fun _ => { queueId := "q2".toList, queueTime := 200, writeOk := fun _ => true }

/-- Inputs of a sweep: queue row id `q2` at time 200, every radio write rejected. -/
def sweepFailing : Nat → SendEnv :=
  fun _ => { queueId := "q2".toList, queueTime := 200, writeOk := fun _ => false }

/-- The world `reconnected` with the queued row at nine attempts. -/
def nineAttempts : World :=
  { reconnected with
    db := { reconnected.db with
      message_queue :=
        [{ id := "q1".toList, messageId := "m1".toList, recipientId := some "u2".toList,
           attempts := 9, lastAttempt := 101 }] } }

/-- The world `connectedWorld` after `sendMessage('u2', 'hi')` with every radio write
rejected. -/
def writeFailed : World :=
  (ChatContext.sendMessage failingEnv connectedWorld (some "u2".toList) "hi".toList
    "text".toList none none).1

/-- An advertisement `'BCHAT_u2_bob'` from address `'AA:BB'` at signal strength -59. -/
def bobAdvert : Peripheral :=
  { id := "AA:BB".toList, name := some "BCHAT_u2_bob".toList, rssi := -59 }

/-- A later advertisement from the same address at signal strength -70. -/
def bobAdvertLater : Peripheral :=
  { id := "AA:BB".toList, name := some "BCHAT_u2_bob".toList, rssi := -70 }

/-- The contact object of peer `u2` at address `'AA:BB'` with the given distance. -/
def bobContact (distance : JSNumber) : Contact :=
  { id := "u2".toList, name := "bob".toList, profilePic := none,
    deviceAddress := "AA:BB".toList, distance := distance }

/-- The world `sampleWorld` after the advertisement `bobAdvert` was handled at time 10 and
`connectToDevice('AA:BB')` resolved at time 20. -/
def bobConnected : World :=
  (connectToDevice 20 (some { address := "AA:BB".toList }) true
    (handleDeviceDiscovered (fun x _ => x)
      { now := 10, contactRowId := "c1".toList, contactTime := 11 } sampleWorld bobAdvert)
    "AA:BB".toList).1

/-- The world `connectedWorld` after `sendMessage('u2', 'hi')` with every radio write
resolving: message `m1` is stored with status `'delivered'`. -/
def deliveredWorld : World :=
  (ChatContext.sendMessage sampleEnv connectedWorld (some "u2".toList) "hi".toList
    "text".toList none none).1

/-- A direct message `m9` from `u2` to `u1`, as decoded on arrival. -/
def inboundMessage : Message :=
  { id := "m9".toList, senderId := "u2".toList, recipientId := some "u1".toList,
    groupId := none, content := "yo".toList, messageType := "text".toList, filePath := none,
    fileSize := none, duration := none, status := "sent".toList, timestamp := 300,
    isProximityBased := 0, proximityLocation := none }

/-- A message `m8` from `u2` to group `g1`, as decoded on arrival. -/
def inboundGroupMessage : Message :=
  { id := "m8".toList, senderId := "u2".toList, recipientId := none,
    groupId := some "g1".toList, content := "hello all".toList, messageType := "text".toList,
    filePath := none, fileSize := none, duration := none, status := "sent".toList,
    timestamp := 310, isProximityBased := 1, proximityLocation := some "location_1".toList }

/-- The world `sampleWorld` after `connectToDevice('u2')` at time 50 in which the radio library
resolved with the device and the call `device.onDataReceived(...)` of line 141 threw. -/
def listenerThrew : World :=
  (connectToDevice 50 (some { address := "u2".toList }) false sampleWorld "u2".toList).1

/-- The user `alice` with id `u1`. -/
def alice : User := { id := "u1".toList, username := "alice".toList }

/-- Inputs of one run of the effect: `getContacts` and `getGroups` resolve with no rows (the
tables are empty) and `BleManager.scan` resolves. -/
def sampleEffect : EffectEnv :=
  { contactsList := some [], groupsList := some [], scanOk := true }

/-- The application is started, `alice` logs in, the effect of lines 17-25 runs (registering
the closure of that render: no chat open, application in the foreground), and then
`setIsInApp(false)` is called: the application is in the background, no chat is open. -/
def backgrounded : World :=
  setIsInApp (userEffect sampleEffect (login World.initial alice)) false

/-- The application is started and `setIsInApp(false)` is called before a user is known; then
`alice` logs in and the effect of lines 17-25 runs (registering the closure of that render: no
chat open, application in the background); then `setActiveChat('g1')` is called: the chat of
group `g1` is the open one. -/
def groupChatOpen : World :=
  setActiveChat (userEffect sampleEffect (login (setIsInApp World.initial false) alice))
    (some "g1".toList)

/-- A later send, a received message and a sweep, in that order. -/
def laterOperations : List Operation :=
  [.send { messageId := "m2".toList, timestamp := 400
           send := { queueId := "q5".toList, queueTime := 401, writeOk := fun _ => false } }
      (some "u2".toList) "again".toList "text".toList none none,
   .receive sampleChat "AA:BB".toList inboundMessage,
   .sweep sweepOk]

/-! ## Properties of `chunkMessage` -/

theorem chunkLoop_acc {α : Type} (message : List α) (fuel i : Nat) (chunks : List (List α)) :
    chunkLoop message fuel i chunks = chunks ++ chunkLoop message fuel i [] := by
  induction fuel generalizing i chunks with
  | zero => simp [chunkLoop]
  | succ n ih =>
    simp only [chunkLoop]
    split
    · rw [ih, ih (i + MESSAGE_CHUNK_SIZE) ([] ++ _)]
      simp
    · simp

theorem chunkLoop_step {α : Type} (message : List α) (fuel i : Nat)
    (hi : i < message.length) :
    chunkLoop message (fuel + 1) i [] =
      slice message i (i + MESSAGE_CHUNK_SIZE) ::
        chunkLoop message fuel (i + MESSAGE_CHUNK_SIZE) [] := by
  simp only [chunkLoop, if_pos hi]
  rw [chunkLoop_acc]
  simp

theorem chunkLoop_done {α : Type} (message : List α) (fuel i : Nat)
    (hi : ¬ i < message.length) :
    chunkLoop message fuel i [] = [] := by
  cases fuel <;> simp [chunkLoop, hi]

theorem slice_length {α : Type} (s : List α) (i : Nat) :
    (slice s i (i + MESSAGE_CHUNK_SIZE)).length = min MESSAGE_CHUNK_SIZE (s.length - i) := by
  simp [slice]

theorem chunkLoop_join {α : Type} (message : List α) (fuel i : Nat)
    (hfuel : message.length - i ≤ fuel) :
    (chunkLoop message fuel i []).flatten = message.drop i := by
  induction fuel generalizing i with
  | zero =>
    have : message.length ≤ i := by omega
    simp [chunkLoop, List.drop_eq_nil_of_le this]
  | succ n ih =>
    by_cases hi : i < message.length
    · rw [chunkLoop_step message n i hi, List.flatten_cons, ih]
      · simp only [slice, Nat.add_sub_cancel_left]
        rw [← List.drop_drop, List.take_append_drop]
      · simp only [MESSAGE_CHUNK_SIZE]; omega
    · rw [chunkLoop_done message _ i hi]
      have : message.length ≤ i := by omega
      simp [List.drop_eq_nil_of_le this]

/-- C1: concatenating the frames returned by `chunkMessage`, in order, gives back exactly the
serialized message, whatever its length. -/
theorem chunkMessage_join {α : Type} (message : List α) :
    (chunkMessage message).flatten = message := by
  unfold chunkMessage
  rw [chunkLoop_join message message.length 0 (by omega)]
  simp

theorem chunkLoop_ne_nil {α : Type} (message : List α) (fuel i : Nat)
    (h : chunkLoop message fuel i [] ≠ []) : i < message.length := by
  by_contra hi
  exact h (chunkLoop_done message fuel i hi)

theorem chunkLoop_frames {α : Type} (message : List α) (fuel i : Nat) :
    (∀ f ∈ chunkLoop message fuel i [], f ≠ [] ∧ f.length ≤ MESSAGE_CHUNK_SIZE) ∧
      (∀ f ∈ (chunkLoop message fuel i []).dropLast, f.length = MESSAGE_CHUNK_SIZE) := by
  induction fuel generalizing i with
  | zero => simp [chunkLoop]
  | succ n ih =>
    by_cases hi : i < message.length
    · rw [chunkLoop_step message n i hi]
      obtain ⟨ih1, ih2⟩ := ih (i + MESSAGE_CHUNK_SIZE)
      have hlen := slice_length message i
      refine ⟨?_, ?_⟩
      · intro f hf
        rcases List.mem_cons.mp hf with rfl | hf
        · refine ⟨?_, ?_⟩
          · intro h0
            rw [h0] at hlen
            simp only [List.length_nil, MESSAGE_CHUNK_SIZE] at hlen
            omega
          · rw [hlen]; exact Nat.min_le_left _ _
        · exact ih1 f hf
      · intro f hf
        cases hrest : chunkLoop message n (i + MESSAGE_CHUNK_SIZE) [] with
        | nil => rw [hrest] at hf; simp at hf
        | cons g gs =>
          have hlt : i + MESSAGE_CHUNK_SIZE < message.length :=
            chunkLoop_ne_nil message n _ (by rw [hrest]; simp)
          rw [hrest, List.dropLast_cons₂] at hf
          rcases List.mem_cons.mp hf with rfl | hf
          · rw [hlen]; omega
          · apply ih2; rw [hrest]; exact hf
    · rw [chunkLoop_done message _ i hi]; simp

/-- C3: every frame returned by `chunkMessage` is non-empty and holds at most
`MESSAGE_CHUNK_SIZE` = 512 units, and every frame but the last holds exactly 512. -/
theorem chunkMessage_frame_sizes {α : Type} (message : List α) :
    (∀ f ∈ chunkMessage message, f ≠ [] ∧ f.length ≤ 512) ∧
      (∀ f ∈ (chunkMessage message).dropLast, f.length = 512) :=
  chunkLoop_frames message message.length 0

/-! ## Properties of the identity codec -/

theorem split_of_not_mem (sep : Char) (a : JSString) (h : sep ∉ a) : split sep a = [a] := by
  induction a with
  | nil => rfl
  | cons c cs ih =>
    have hc : c ≠ sep := fun e => h (by simp [e])
    have hcs : sep ∉ cs := fun e => h (by simp [e])
    simp [split, hc, ih hcs]

theorem split_append_sep (sep : Char) (a rest : JSString) (h : sep ∉ a) :
    split sep (a ++ sep :: rest) = a :: split sep rest := by
  induction a with
  | nil => simp [split]
  | cons c cs ih =>
    have hc : c ≠ sep := fun e => h (by simp [e])
    have hcs : sep ∉ cs := fun e => h (by simp [e])
    simp [split, hc, ih hcs]

theorem split_head (sep : Char) (s : JSString) :
    ∃ a rest, split sep s = a :: rest ∧ sep ∉ a := by
  induction s with
  | nil => exact ⟨[], [], rfl, by simp⟩
  | cons c cs ih =>
    obtain ⟨a, rest, hs, ha⟩ := ih
    by_cases hc : c = sep
    · exact ⟨[], split sep cs, by simp [split, hc], by simp⟩
    · refine ⟨c :: a, rest, by simp [split, hc, hs], ?_⟩
      simp only [List.mem_cons, not_or]
      exact ⟨fun e => hc e.symm, ha⟩

theorem replace_of_startsWith (name pat : JSString) (hpat : pat ≠ [])
    (h : startsWith name pat = true) : replace name pat [] = name.drop pat.length := by
  cases name with
  | nil =>
    cases pat with
    | nil => exact absurd rfl hpat
    | cons p ps => simp [startsWith, List.isPrefixOf] at h
  | cons c cs =>
    simp only [startsWith] at h
    simp [replace, h]

theorem replace_deviceName (userId username : JSString) :
    replace (deviceName userId username) "BCHAT_".toList [] = userId ++ '_' :: username := by
  rw [replace_of_startsWith _ _ (by decide)]
  · simp [deviceName]
  · simp [deviceName, startsWith]

theorem orElse_id_eq (x : JSString) (d : JSString) :
    orElse (some x) id d = if x = [] then d else x := by
  cases x <;> simp [orElse]

/-- C4 (amended): the advertisement string built by `setDeviceName` is decoded by
`parseDeviceName` back to the same `userId` and `username` exactly when both are non-empty and
neither contains the delimiter `_`. -/
theorem parseDeviceName_deviceName_iff (userId username : JSString) :
    ((parseDeviceName (deviceName userId username)).userId = userId ∧
        (parseDeviceName (deviceName userId username)).username = username) ↔
      (userId ≠ [] ∧ username ≠ [] ∧ '_' ∉ userId ∧ '_' ∉ username) := by
  simp only [parseDeviceName, replace_deviceName]
  constructor
  · rintro ⟨hu, hd⟩
    have hu_no : '_' ∉ userId := by
      obtain ⟨a, rest, hs, ha⟩ := split_head '_' (userId ++ '_' :: username)
      rw [hs] at hu
      simp only [List.getElem?_cons_zero, orElse_id_eq] at hu
      split at hu
      · rw [← hu]; decide
      · rw [← hu]; exact ha
    rw [split_append_sep _ _ _ hu_no] at hu hd
    simp only [List.getElem?_cons_zero, List.getElem?_cons_succ, orElse_id_eq] at hu hd
    have hu_ne : userId ≠ [] := by
      intro h0
      rw [if_pos h0, h0] at hu
      exact absurd hu (by decide)
    obtain ⟨a, rest, hs, ha⟩ := split_head '_' username
    rw [hs] at hd
    simp only [List.getElem?_cons_zero, orElse_id_eq] at hd
    split at hd
    · refine ⟨hu_ne, ?_, hu_no, ?_⟩ <;> rw [← hd] <;> decide
    · rename_i hne
      refine ⟨hu_ne, ?_, hu_no, ?_⟩
      · rw [← hd]; exact hne
      · rw [← hd]; exact ha
  · rintro ⟨hu, hd, hu_no, hd_no⟩
    rw [split_append_sep _ _ _ hu_no, split_of_not_mem _ _ hd_no]
    simp [orElse_id_eq, hu, hd]

/-- C4 (as stated) fails: for `userId = 'u1'` and `displayName = 'john_doe'` the advertisement
`'BCHAT_u1_john_doe'` decodes to username `'john'` (and profilePic `'doe'`). -/
theorem parseDeviceName_deviceName_counterexample :
    parseDeviceName (deviceName "u1".toList "john_doe".toList) =
        { userId := "u1".toList, username := "john".toList, profilePic := some "doe".toList } ∧
      (parseDeviceName (deviceName "u1".toList "john_doe".toList)).username ≠
        "john_doe".toList := by
  decide

theorem orElse_eq_specField {α : Type} (fields : List JSString) (k : Nat) (inj : JSString → α)
    (d : α) : orElse fields[k]? inj d = specField fields k inj d := by
  unfold specField
  by_cases h : k < fields.length
  · rw [List.getElem?_eq_getElem h, dif_pos h]
    cases hk : fields[k] <;> simp [orElse]
  · rw [List.getElem?_eq_none (by omega), dif_neg h]
    rfl

/-- C6: `parseDeviceName` is total; with `fields` the `_`-separated fields of the name after
`'BCHAT_'` is removed, `userId` is field 0 or `'unknown'`, `username` is field 1 or `'User'`,
`profilePic` is field 2 or `null`, each default taken when the field is missing or empty; for a
name that starts with `'BCHAT_'` what is removed is that prefix; and `parseDeviceName('BCHAT_')`
is `{userId: 'unknown', username: 'User', profilePic: null}`. -/
theorem parseDeviceName_fields (name : JSString) :
    parseDeviceName name =
        { userId := specField (split '_' (replace name "BCHAT_".toList [])) 0 id "unknown".toList
          username := specField (split '_' (replace name "BCHAT_".toList [])) 1 id "User".toList
          profilePic := specField (split '_' (replace name "BCHAT_".toList [])) 2 some none } ∧
      (startsWith name "BCHAT_".toList = true →
        replace name "BCHAT_".toList [] = name.drop 6) ∧
      parseDeviceName "BCHAT_".toList =
        { userId := "unknown".toList, username := "User".toList, profilePic := none } := by
  refine ⟨?_, ?_, by decide⟩
  · simp only [parseDeviceName, orElse_eq_specField]
  · intro h
    exact replace_of_startsWith name _ (by decide) h

/-! ## Properties of discovery -/

/-- C5: a discovered peripheral whose name is missing, or does not start with `'BCHAT_'`, leaves
the world as it was: `discoveredDevices` is unchanged, and no `saveContact` call is made (the
store-call trace and the `contacts` table are unchanged). -/
theorem handleDeviceDiscovered_unprefixed (rpow : JSNumber → JSNumber → JSNumber)
    (env : DiscoveryEnv) (w : World) (peripheral : Peripheral)
    (h : ∀ name, peripheral.name = some name → startsWith name "BCHAT_".toList = false) :
    handleDeviceDiscovered rpow env w peripheral = w ∧
      (handleDeviceDiscovered rpow env w peripheral).bt.discoveredDevices =
        w.bt.discoveredDevices ∧
      (handleDeviceDiscovered rpow env w peripheral).storeCalls = w.storeCalls ∧
      (handleDeviceDiscovered rpow env w peripheral).db.contacts = w.db.contacts := by
  have key : handleDeviceDiscovered rpow env w peripheral = w := by
    unfold handleDeviceDiscovered
    cases hn : peripheral.name with
    | none => simp [truthy]
    | some name =>
      have hs := h name hn
      rw [if_pos]
      simp only [Option.getD_some, hs, Bool.not_false, Bool.or_true]
  rw [key]
  exact ⟨rfl, rfl, rfl, rfl⟩

/-- C5 at a concrete input: a peripheral named `'Speaker'` seen by a logged-in service. -/
theorem handleDeviceDiscovered_unprefixed_witness :
    handleDeviceDiscovered (fun x _ => x) ⟨5, "c1".toList, 6⟩
        { World.initial with bt := { World.initial.bt with userId := some "u1".toList } }
        ⟨"AA:BB".toList, some "Speaker".toList, -40⟩ =
        { World.initial with bt := { World.initial.bt with userId := some "u1".toList } } ∧
      (handleDeviceDiscovered (fun x _ => x) ⟨5, "c1".toList, 6⟩
        { World.initial with bt := { World.initial.bt with userId := some "u1".toList } }
        ⟨"AA:BB".toList, some "Speaker".toList, -40⟩).bt.discoveredDevices = [] ∧
      (handleDeviceDiscovered (fun x _ => x) ⟨5, "c1".toList, 6⟩
        { World.initial with bt := { World.initial.bt with userId := some "u1".toList } }
        ⟨"AA:BB".toList, some "Speaker".toList, -40⟩).storeCalls = [] ∧
      (handleDeviceDiscovered (fun x _ => x) ⟨5, "c1".toList, 6⟩
        { World.initial with bt := { World.initial.bt with userId := some "u1".toList } }
        ⟨"AA:BB".toList, some "Speaker".toList, -40⟩).db.contacts = [] :=
  handleDeviceDiscovered_unprefixed (fun x _ => x) ⟨5, "c1".toList, 6⟩
    { World.initial with bt := { World.initial.bt with userId := some "u1".toList } }
    ⟨"AA:BB".toList, some "Speaker".toList, -40⟩
    (by
      intro name hname
      have hn : name = "Speaker".toList := by
        simpa using hname.symm
      subst hn
      decide)

/-! ## Properties of the distance estimator -/

theorem Math.pow_ten (rpow : JSNumber → JSNumber → JSNumber) (x : JSNumber) :
    Math.pow rpow x 10 = x ^ 10 := by
  have h1 : (10 : ℚ).den = 1 := rfl
  have h2 : (10 : ℚ).num = 10 := rfl
  simp [Math.pow, h1, h2]

theorem Math.pow_frac (rpow : JSNumber → JSNumber → JSNumber) (x : JSNumber) :
    Math.pow rpow x 7.7095 = rpow x 7.7095 := by
  have h1 : (7.7095 : ℚ).den ≠ 1 := by
    intro h
    have hq : ((7.7095 : ℚ).num : ℚ) = 7.7095 := by
      have := Rat.num_div_den (7.7095 : ℚ)
      rw [h] at this
      simpa using this
    have h2000 : ((7.7095 : ℚ).num : ℚ) * 2000 = 15419 := by
      rw [hq]; norm_num
    have hz : (7.7095 : ℚ).num * 2000 = 15419 := by exact_mod_cast h2000
    omega
  simp [Math.pow, h1]

theorem calculateDistance_zero (rpow : JSNumber → JSNumber → JSNumber) :
    calculateDistance rpow 0 = -1 := by
  simp [calculateDistance]

theorem calculateDistance_near (rpow : JSNumber → JSNumber → JSNumber) (rssi : Int)
    (h0 : rssi ≠ 0) (h : (rssi : ℚ) / (-59) < 1) :
    calculateDistance rpow rssi = ((rssi : ℚ) / (-59)) ^ 10 := by
  have h' : (rssi : ℚ) * 1.0 / (-59) < 1.0 := by
    norm_num at h ⊢; exact h
  simp only [calculateDistance, if_neg h0, if_pos h', Math.pow_ten]
  norm_num

theorem calculateDistance_far (rpow : JSNumber → JSNumber → JSNumber) (rssi : Int)
    (h0 : rssi ≠ 0) (h : ¬ (rssi : ℚ) / (-59) < 1) :
    calculateDistance rpow rssi =
      Math.round ((0.89976 * rpow ((rssi : ℚ) / (-59)) 7.7095 + 0.111) * 10) / 10 := by
  have h' : ¬ (rssi : ℚ) * 1.0 / (-59) < 1.0 := by
    norm_num at h ⊢; exact h
  simp only [calculateDistance, if_neg h0, if_neg h', Math.pow_frac]
  norm_num

theorem Math.round_nearest (y : JSNumber) :
    |Math.round y - y| ≤ 1 / 2 := by
  unfold Math.round
  have h1 := Int.floor_le (y + 1 / 2)
  have h2 := Int.lt_floor_add_one (y + 1 / 2)
  rw [abs_le]
  constructor <;> linarith

/-- C7: `calculateDistance(0)` is the sentinel -1; for a non-zero signal strength the result is
non-negative, so the result is -1 exactly when the signal strength is 0.  The real-exponent
power is assumed non-negative on arguments not below 1. -/
theorem calculateDistance_sentinel (rpow : JSNumber → JSNumber → JSNumber)
    (hpow : ∀ x : JSNumber, 1 ≤ x → 0 ≤ rpow x 7.7095) (rssi : Int) :
    calculateDistance rpow 0 = -1 ∧
      (rssi ≠ 0 → 0 ≤ calculateDistance rpow rssi) ∧
      (calculateDistance rpow rssi = -1 ↔ rssi = 0) := by
  have hnonneg : rssi ≠ 0 → 0 ≤ calculateDistance rpow rssi := by
    intro h0
    by_cases h : (rssi : ℚ) / (-59) < 1
    · rw [calculateDistance_near rpow rssi h0 h]
      exact Even.pow_nonneg (by decide) _
    · rw [calculateDistance_far rpow rssi h0 h]
      have hp := hpow ((rssi : ℚ) / (-59)) (not_lt.mp h)
      apply div_nonneg _ (by norm_num)
      unfold Math.round
      have : (0 : ℤ) ≤ ⌊(0.89976 * rpow ((rssi : ℚ) / (-59)) 7.7095 + 0.111) * 10 + 1 / 2⌋ := by
        apply Int.floor_nonneg.mpr
        have : (0 : ℚ) ≤ 0.89976 * rpow ((rssi : ℚ) / (-59)) 7.7095 :=
          mul_nonneg (by norm_num) hp
        linarith
      exact_mod_cast this
  refine ⟨calculateDistance_zero rpow, hnonneg, ?_, ?_⟩
  · intro h
    by_contra h0
    have := hnonneg h0
    rw [h] at this
    norm_num at this
  · intro h
    rw [h]
    exact calculateDistance_zero rpow

/-- C7 at a concrete input: signal strength -70. -/
theorem calculateDistance_sentinel_witness :
    calculateDistance (fun x _ => x) 0 = -1 ∧
      ((-70 : Int) ≠ 0 → 0 ≤ calculateDistance (fun x _ => x) (-70)) ∧
      (calculateDistance (fun x _ => x) (-70) = -1 ↔ (-70 : Int) = 0) :=
  calculateDistance_sentinel (fun x _ => x) (fun x hx => by linarith) (-70)

/-- C8: for a non-zero signal strength with `ratio = rssi / -59`: when `ratio < 1` the result is
`ratio^10`; otherwise it is `Math.round((0.89976 * ratio^7.7095 + 0.111) * 10) / 10`, a whole
number of tenths within 0.05 of `0.89976 * ratio^7.7095 + 0.111`; at `rssi = -59` the ratio is
exactly 1, not below 1, and the result is 1 as soon as `1^7.7095 = 1`. -/
theorem calculateDistance_formula (rpow : JSNumber → JSNumber → JSNumber) (rssi : Int)
    (h0 : rssi ≠ 0) :
    ((rssi : ℚ) / (-59) < 1 → calculateDistance rpow rssi = ((rssi : ℚ) / (-59)) ^ 10) ∧
      (¬ (rssi : ℚ) / (-59) < 1 →
        calculateDistance rpow rssi =
            Math.round ((0.89976 * rpow ((rssi : ℚ) / (-59)) 7.7095 + 0.111) * 10) / 10 ∧
          ∃ k : ℤ, calculateDistance rpow rssi = (k : ℚ) / 10 ∧
            |calculateDistance rpow rssi -
                (0.89976 * rpow ((rssi : ℚ) / (-59)) 7.7095 + 0.111)| ≤ 1 / 20) ∧
      (((-59 : Int) : ℚ) / (-59) = 1 ∧ ¬ ((-59 : Int) : ℚ) / (-59) < 1) ∧
      (rpow 1 7.7095 = 1 → calculateDistance rpow (-59) = 1) := by
  refine ⟨calculateDistance_near rpow rssi h0, ?_, by norm_num, ?_⟩
  · intro h
    have hfar := calculateDistance_far rpow rssi h0 h
    refine ⟨hfar, ⌊(0.89976 * rpow ((rssi : ℚ) / (-59)) 7.7095 + 0.111) * 10 + 1 / 2⌋, ?_, ?_⟩
    · rw [hfar]; rfl
    · rw [hfar]
      have hr := Math.round_nearest ((0.89976 * rpow ((rssi : ℚ) / (-59)) 7.7095 + 0.111) * 10)
      rw [abs_le] at hr ⊢
      constructor <;> linarith [hr.1, hr.2]
  · intro h1
    have hfar := calculateDistance_far rpow (-59) (by decide) (by norm_num)
    rw [hfar]
    have hr : ((-59 : Int) : ℚ) / (-59) = 1 := by norm_num
    rw [hr, h1]
    unfold Math.round
    have hfl : ⌊((0.89976 : ℚ) * 1 + 0.111) * 10 + 1 / 2⌋ = 10 := by
      rw [Int.floor_eq_iff]
      constructor <;> norm_num
    rw [hfl]
    norm_num

/-- C8 at a concrete input: signal strength -40. -/
theorem calculateDistance_formula_witness :
    (((-40 : Int) : ℚ) / (-59) < 1 →
        calculateDistance (fun x _ => x) (-40) = (((-40 : Int) : ℚ) / (-59)) ^ 10) ∧
      (¬ ((-40 : Int) : ℚ) / (-59) < 1 →
        calculateDistance (fun x _ => x) (-40) =
            Math.round ((0.89976 * (fun x _ => x) (((-40 : Int) : ℚ) / (-59)) 7.7095 + 0.111) * 10)
              / 10 ∧
          ∃ k : ℤ, calculateDistance (fun x _ => x) (-40) = (k : ℚ) / 10 ∧
            |calculateDistance (fun x _ => x) (-40) -
                (0.89976 * (fun x _ => x) (((-40 : Int) : ℚ) / (-59)) 7.7095 + 0.111)| ≤
              1 / 20) ∧
      (((-59 : Int) : ℚ) / (-59) = 1 ∧ ¬ ((-59 : Int) : ℚ) / (-59) < 1) ∧
      ((fun x _ => x) (1 : ℚ) (7.7095 : ℚ) = (1 : ℚ) →
        calculateDistance (fun x _ => x) (-59) = 1) :=
  calculateDistance_formula (fun x _ => x) (-40) (by decide)

/-- C9 (amended): for a signal strength with `ratio ≥ 1`, that is `rssi ≤ -59`, the distance
returned is a whole multiple of 0.1. -/
theorem calculateDistance_rounded (rpow : JSNumber → JSNumber → JSNumber) (rssi : Int)
    (h : rssi ≤ -59) : ∃ k : ℤ, calculateDistance rpow rssi = (k : ℚ) / 10 := by
  have h0 : rssi ≠ 0 := by omega
  have hq : (rssi : ℚ) ≤ -59 := by exact_mod_cast h
  have hfar : ¬ (rssi : ℚ) / (-59) < 1 := by
    rw [not_lt, le_div_iff_of_neg (by norm_num)]
    linarith
  exact ⟨_, by rw [calculateDistance_far rpow rssi h0 hfar]; rfl⟩

/-- C9 (amended) at a concrete input: signal strength -70. -/
theorem calculateDistance_rounded_witness :
    ∃ k : ℤ, calculateDistance (fun x _ => x) (-70) = (k : ℚ) / 10 :=
  calculateDistance_rounded (fun x _ => x) (-70) (by decide)

/-- C9 (as stated) fails: at `rssi = -30` the ratio is 30/59 < 1 and the result is the unrounded
`(30/59)^10`, about 0.00116, which is not a whole multiple of 0.1. -/
theorem calculateDistance_rounded_counterexample :
    ¬ ∃ k : ℤ, calculateDistance (fun x _ => x) (-30) = (k : ℚ) / 10 := by
  rintro ⟨k, hk⟩
  rw [calculateDistance_near _ (-30) (by decide) (by norm_num)] at hk
  have hpos : (0 : ℚ) < (k : ℚ) := by
    have : (0 : ℚ) < (((-30 : Int) : ℚ) / (-59)) ^ 10 := by norm_num
    rw [hk] at this
    linarith
  have hlt : (k : ℚ) < 1 := by
    have : (((-30 : Int) : ℚ) / (-59)) ^ 10 < 1 / 10 := by norm_num
    rw [hk] at this
    linarith
  have h1 : 0 < k := by exact_mod_cast hpos
  have h2 : k < 1 := by exact_mod_cast hlt
  omega

/-! ## Properties of sending -/

theorem saveMessage_fresh (db : Database) (message : Message)
    (h : ∀ r ∈ db.messages, r.id ≠ message.id) :
    saveMessage db message =
      some { db with
        messages := db.messages ++
          [{ message with isProximityBased := if message.isProximityBased ≠ 0 then 1 else 0 }] } := by
  unfold saveMessage
  rw [if_neg]
  simpa using h

theorem addToMessageQueue_fresh (db : Database) (queueId : JSString) (now : Nat)
    (messageId : JSString) (recipientId : Option JSString)
    (h : ∀ r ∈ db.message_queue, r.id ≠ queueId) :
    addToMessageQueue db queueId now messageId recipientId =
      some { db with
        message_queue := db.message_queue ++
          [{ id := queueId, messageId := messageId, recipientId := recipientId, attempts := 0,
             lastAttempt := now }] } := by
  unfold addToMessageQueue
  rw [if_neg]
  simpa using h

theorem buildMessage_stored (env : ChatEnv) (user : User) (recipientId : Option JSString)
    (content messageType : JSString) (filePath groupId : Option JSString) :
    { buildMessage env user recipientId content messageType filePath groupId with
        isProximityBased :=
          if (buildMessage env user recipientId content messageType filePath groupId).isProximityBased
              ≠ 0 then 1 else 0 } =
      buildMessage env user recipientId content messageType filePath groupId := by
  unfold buildMessage
  cases truthy groupId <;> simp

theorem sendMessage_no_device (env : SendEnv) (w : World) (recipientId : Option JSString)
    (message : Payload)
    (hoffline : ∀ r, recipientId = some r → mapGet w.bt.connectedDevices r = none)
    (hfresh : ∀ r ∈ w.db.message_queue, r.id ≠ env.queueId) :
    BluetoothService.sendMessage env w recipientId message =
      ({ w with
          storeCalls := w.storeCalls ++ [.addToMessageQueue]
          db := { w.db with
            message_queue := w.db.message_queue ++
              [{ id := env.queueId, messageId := message.id, recipientId := recipientId,
                 attempts := 0, lastAttempt := env.queueTime }] } },
        .ok false) := by
  have hget : recipientId.bind (mapGet w.bt.connectedDevices) = none := by
    cases recipientId with
    | none => rfl
    | some r => simpa using hoffline r rfl
  unfold BluetoothService.sendMessage
  rw [hget]
  simp only [enqueue, addToMessageQueue_fresh _ _ _ _ _ hfresh]

/-- C10: when a user is logged in, the recipient has no entry in `connectedDevices` and the two
generated ids are new, `ChatContext.sendMessage` writes nothing to the radio, stores the message
with status `'sent'` and leaves it so, appends exactly one `message_queue` row for that message
and recipient with `attempts = 0`, and reports success; `BluetoothService.sendMessage` returns
`false`. -/
theorem sendMessage_offline (env : ChatEnv) (w : World) (user : User)
    (recipientId : Option JSString) (content messageType : JSString)
    (filePath groupId : Option JSString)
    (huser : w.chat.user = some user)
    (hoffline : ∀ r, recipientId = some r → mapGet w.bt.connectedDevices r = none)
    (hmessage : ∀ r ∈ w.db.messages, r.id ≠ env.messageId)
    (hqueue : ∀ r ∈ w.db.message_queue, r.id ≠ env.send.queueId) :
    (ChatContext.sendMessage env w recipientId content messageType filePath groupId).2 =
        .success env.messageId ∧
      (ChatContext.sendMessage env w recipientId content messageType filePath groupId).1.radio =
        w.radio ∧
      (ChatContext.sendMessage env w recipientId content messageType filePath
          groupId).1.storeCalls =
        w.storeCalls ++ [.saveMessage, .getMessages, .addToMessageQueue] ∧
      (ChatContext.sendMessage env w recipientId content messageType filePath groupId).1.db.messages =
        w.db.messages ++
          [buildMessage env user recipientId content messageType filePath groupId] ∧
      (buildMessage env user recipientId content messageType filePath groupId).status =
        "sent".toList ∧
      (ChatContext.sendMessage env w recipientId content messageType filePath
          groupId).1.db.message_queue =
        w.db.message_queue ++
          [{ id := env.send.queueId, messageId := env.messageId, recipientId := recipientId,
             attempts := 0, lastAttempt := env.send.queueTime }] ∧
      (BluetoothService.sendMessage env.send w recipientId
          (.message (buildMessage env user recipientId content messageType filePath groupId))).2 =
        .ok false := by
  have hsave := saveMessage_fresh w.db
    (buildMessage env user recipientId content messageType filePath groupId) hmessage
  rw [buildMessage_stored] at hsave
  have hsend := sendMessage_no_device env.send w recipientId
    (.message (buildMessage env user recipientId content messageType filePath groupId))
    hoffline hqueue
  have hrun : ChatContext.sendMessage env w recipientId content messageType filePath groupId =
      ({ w with
          chat := { w.chat with
            messages := mapSet w.chat.messages
              (chatKey (if truthy groupId then groupId else recipientId))
              (getMessages
                { w.db with messages := w.db.messages ++
                  [buildMessage env user recipientId content messageType filePath groupId] }
                (if truthy groupId then groupId else recipientId) (truthy groupId) none) }
          storeCalls := w.storeCalls ++ [.saveMessage, .getMessages, .addToMessageQueue]
          db := { w.db with
            messages := w.db.messages ++
              [buildMessage env user recipientId content messageType filePath groupId]
            message_queue := w.db.message_queue ++
              [{ id := env.send.queueId, messageId := env.messageId, recipientId := recipientId,
                 attempts := 0, lastAttempt := env.send.queueTime }] } },
        .success env.messageId) := by
    unfold ChatContext.sendMessage
    simp only [huser, hsave]
    cases hg : truthy groupId
    · simp only [Bool.false_eq_true, if_false]
      rw [sendMessage_no_device env.send _ recipientId _ (by simpa [loadMessages] using hoffline)
        (by simpa [loadMessages] using hqueue)]
      simp [loadMessages, Payload.id, buildMessage, huser]
    · simp only [if_true]
      rw [sendMessage_no_device env.send _ recipientId _ (by simpa [loadMessages] using hoffline)
        (by simpa [loadMessages] using hqueue)]
      simp [loadMessages, Payload.id, buildMessage, huser]
  rw [hrun, hsend]
  exact ⟨rfl, rfl, rfl, rfl, rfl, rfl, rfl⟩

/-- C10 at a concrete input: user `u1` sends `'hi'` to `u2`, who is not connected. -/
theorem sendMessage_offline_witness :
    (ChatContext.sendMessage sampleEnv sampleWorld (some "u2".toList) "hi".toList "text".toList
          none none).2 = .success "m1".toList ∧
      (ChatContext.sendMessage sampleEnv sampleWorld (some "u2".toList) "hi".toList "text".toList
          none none).1.radio = [] ∧
      (ChatContext.sendMessage sampleEnv sampleWorld (some "u2".toList) "hi".toList "text".toList
          none none).1.storeCalls = [.saveMessage, .getMessages, .addToMessageQueue] ∧
      (ChatContext.sendMessage sampleEnv sampleWorld (some "u2".toList) "hi".toList "text".toList
          none none).1.db.messages =
        [{ id := "m1".toList, senderId := "u1".toList, recipientId := some "u2".toList,
           groupId := none, content := "hi".toList, messageType := "text".toList,
           filePath := none, fileSize := none, duration := none, status := "sent".toList,
           timestamp := 100, isProximityBased := 0, proximityLocation := none }] ∧
      (ChatContext.sendMessage sampleEnv sampleWorld (some "u2".toList) "hi".toList "text".toList
          none none).1.db.message_queue =
        [{ id := "q1".toList, messageId := "m1".toList, recipientId := some "u2".toList,
           attempts := 0, lastAttempt := 101 }] :=
  have h := sendMessage_offline sampleEnv sampleWorld
    { id := "u1".toList, username := "alice".toList } (some "u2".toList) "hi".toList
    "text".toList none none rfl (by intro r _; rfl) (by intro r hr; cases hr)
    (by intro r hr; cases hr)
  ⟨h.1, h.2.1, h.2.2.1, h.2.2.2.1, h.2.2.2.2.2.1⟩

/-! ## Properties of receiving -/

theorem handleDataReceived_frames (dev : DeviceId) (frames : List JSString) (w : World)
    (hcb : w.bt.onMessageReceived.isSome = true) :
    frames.foldl (fun w f => handleDataReceived w dev f) w =
      { w with
        received := w.received ++
          frames.filterMap (fun f => (JSON.parse f).map (fun m => (dev, m))) } := by
  induction frames generalizing w with
  | nil => simp
  | cons f fs ih =>
    rw [List.foldl_cons]
    cases hp : JSON.parse f with
    | none =>
      have h1 : handleDataReceived w dev f = w := by simp [handleDataReceived, hp]
      rw [h1, ih w hcb]
      simp [List.filterMap_cons, hp]
    | some m =>
      have h1 : handleDataReceived w dev f = { w with received := w.received ++ [(dev, m)] } := by
        simp [handleDataReceived, hp, hcb]
      rw [h1, ih { w with received := w.received ++ [(dev, m)] } hcb]
      simp [List.filterMap_cons, hp]

/-- C2 (evaluated at the failing input): the serialization of `longMessage` holds 789 units and
is split into two frames; parsed whole it decodes to the message, but `handleDataReceived`
parses each frame on its own, both parses fail, and after both frames are delivered in order
the registered callback has not been invoked at all. -/
theorem handleDataReceived_longMessage :
    (JSON.stringify (.message longMessage)).length = 789 ∧
      (chunkMessage (JSON.stringify (.message longMessage))).length = 2 ∧
      JSON.parse (JSON.stringify (.message longMessage)) =
        some (Payload.toJS (.message longMessage)) ∧
      (chunkMessage (JSON.stringify (.message longMessage))).map JSON.parse = [none, none] ∧
      sampleWorld.bt.onMessageReceived.isSome = true ∧
      ((chunkMessage (JSON.stringify (.message longMessage))).foldl
          (fun w f => handleDataReceived w "AA:BB".toList f) sampleWorld).received = [] := by
  refine ⟨by rfl, by rfl, by rfl, by rfl, rfl, by rfl⟩

/-! ## Properties of a failed write -/

theorem writeChunks_fails (writeOk : Nat → Bool) (device : DeviceId) (start : Nat)
    (chunks : List JSString) (radio : List RadioCall)
    (h : ∃ k, k < chunks.length ∧ writeOk (start + k) = false) :
    (writeChunks writeOk device start chunks radio).2 = false := by
  induction chunks generalizing start radio with
  | nil =>
    obtain ⟨k, hk, _⟩ := h
    simp at hk
  | cons c cs ih =>
    unfold writeChunks
    by_cases hs : writeOk start = true
    · rw [if_pos hs]
      apply ih
      obtain ⟨k, hk, hf⟩ := h
      cases k with
      | zero => simp [hs] at hf
      | succ j =>
        refine ⟨j, by simpa using hk, ?_⟩
        rw [← hf]
        congr 1
        omega
    · rw [if_neg hs]

theorem sendMessage_write_fails (env : SendEnv) (w : World) (r : JSString) (device : Device)
    (message : Payload)
    (hconn : mapGet w.bt.connectedDevices r = some device)
    (hfail : ∃ k, k < (chunkMessage (JSON.stringify message)).length ∧ env.writeOk k = false)
    (hfresh : ∀ q ∈ w.db.message_queue, q.id ≠ env.queueId) :
    BluetoothService.sendMessage env w (some r) message =
      ({ w with
          radio := (writeChunks env.writeOk device.address 0
            (chunkMessage (JSON.stringify message)) w.radio).1
          storeCalls := w.storeCalls ++ [.addToMessageQueue]
          db := { w.db with
            message_queue := w.db.message_queue ++
              [{ id := env.queueId, messageId := message.id, recipientId := some r,
                 attempts := 0, lastAttempt := env.queueTime }] } },
        .ok false) := by
  have hw := writeChunks_fails env.writeOk device.address 0
    (chunkMessage (JSON.stringify message)) w.radio (by simpa using hfail)
  have hget : (some r).bind (mapGet w.bt.connectedDevices) = some device := hconn
  have hc : writeChunks env.writeOk device.address 0 (chunkMessage (JSON.stringify message))
      w.radio =
      ((writeChunks env.writeOk device.address 0 (chunkMessage (JSON.stringify message))
        w.radio).1, false) := by
    rw [← hw]
  unfold BluetoothService.sendMessage
  rw [hget]
  simp only []
  rw [hc]
  simp only [enqueue, addToMessageQueue_fresh _ _ _ _ _ hfresh]

/-- C11: when a user is logged in, the recipient is connected, some frame write of the send
fails and the store operations succeed (the two generated ids are new),
`BluetoothService.sendMessage` appends exactly one `message_queue` row for the message and
returns `false`, and `ChatContext.sendMessage` still returns `{success: true, messageId}` with
the message stored with status `'sent'` and no `updateMessageStatus` call made. -/
theorem sendMessage_write_failure (env : ChatEnv) (w : World) (user : User) (r : JSString)
    (device : Device) (content messageType : JSString) (filePath groupId : Option JSString)
    (huser : w.chat.user = some user)
    (hconn : mapGet w.bt.connectedDevices r = some device)
    (hfail : ∃ k,
      k < (chunkMessage (JSON.stringify
        (.message (buildMessage env user (some r) content messageType filePath groupId)))).length ∧
        env.send.writeOk k = false)
    (hmessage : ∀ m ∈ w.db.messages, m.id ≠ env.messageId)
    (hqueue : ∀ q ∈ w.db.message_queue, q.id ≠ env.send.queueId) :
    (BluetoothService.sendMessage env.send w (some r)
          (.message (buildMessage env user (some r) content messageType filePath groupId))).2 =
        .ok false ∧
      (BluetoothService.sendMessage env.send w (some r)
          (.message (buildMessage env user (some r) content messageType filePath
            groupId))).1.db.message_queue =
        w.db.message_queue ++
          [{ id := env.send.queueId, messageId := env.messageId, recipientId := some r,
             attempts := 0, lastAttempt := env.send.queueTime }] ∧
      (ChatContext.sendMessage env w (some r) content messageType filePath groupId).2 =
        .success env.messageId ∧
      (ChatContext.sendMessage env w (some r) content messageType filePath groupId).1.db.messages =
        w.db.messages ++ [buildMessage env user (some r) content messageType filePath groupId] ∧
      (buildMessage env user (some r) content messageType filePath groupId).status =
        "sent".toList ∧
      (ChatContext.sendMessage env w (some r) content messageType filePath
          groupId).1.db.message_queue =
        w.db.message_queue ++
          [{ id := env.send.queueId, messageId := env.messageId, recipientId := some r,
             attempts := 0, lastAttempt := env.send.queueTime }] ∧
      (ChatContext.sendMessage env w (some r) content messageType filePath groupId).1.storeCalls =
        w.storeCalls ++ [.saveMessage, .getMessages, .addToMessageQueue] := by
  have hsave := saveMessage_fresh w.db
    (buildMessage env user (some r) content messageType filePath groupId) hmessage
  rw [buildMessage_stored] at hsave
  have hsend := sendMessage_write_fails env.send w r device
    (.message (buildMessage env user (some r) content messageType filePath groupId))
    hconn hfail hqueue
  have hrun : ChatContext.sendMessage env w (some r) content messageType filePath groupId =
      ({ w with
          chat := { w.chat with
            messages := mapSet w.chat.messages
              (chatKey (if truthy groupId then groupId else some r))
              (getMessages
                { w.db with messages := w.db.messages ++
                  [buildMessage env user (some r) content messageType filePath groupId] }
                (if truthy groupId then groupId else some r) (truthy groupId) none) }
          radio := (writeChunks env.send.writeOk device.address 0
            (chunkMessage (JSON.stringify
              (.message (buildMessage env user (some r) content messageType filePath groupId))))
            w.radio).1
          storeCalls := w.storeCalls ++ [.saveMessage, .getMessages, .addToMessageQueue]
          db := { w.db with
            messages := w.db.messages ++
              [buildMessage env user (some r) content messageType filePath groupId]
            message_queue := w.db.message_queue ++
              [{ id := env.send.queueId, messageId := env.messageId, recipientId := some r,
                 attempts := 0, lastAttempt := env.send.queueTime }] } },
        .success env.messageId) := by
    unfold ChatContext.sendMessage
    simp only [huser, hsave]
    cases hg : truthy groupId
    · simp only [Bool.false_eq_true, if_false]
      rw [sendMessage_write_fails env.send _ r device _ (by simpa [loadMessages] using hconn)
        hfail (by simpa [loadMessages] using hqueue)]
      simp [loadMessages, Payload.id, buildMessage, huser]
    · simp only [if_true]
      rw [sendMessage_write_fails env.send _ r device _ (by simpa [loadMessages] using hconn)
        hfail (by simpa [loadMessages] using hqueue)]
      simp [loadMessages, Payload.id, buildMessage, huser]
  rw [hrun, hsend]
  exact ⟨rfl, rfl, rfl, rfl, rfl, rfl, rfl⟩

/-! ## Properties of the `ORDER BY` clauses and of `getMessageQueue` -/

theorem insertBy_perm {α : Type} (key : α → Nat) (x : α) (l : List α) :
    (insertBy key x l).Perm (x :: l) := by
  induction l with
  | nil => exact List.Perm.refl _
  | cons r rs ih =>
    unfold insertBy
    split
    · exact List.Perm.refl _
    · exact (List.Perm.cons r ih).trans (List.Perm.swap x r rs)

theorem insertBy_sorted {α : Type} (key : α → Nat) (x : α) (l : List α)
    (h : l.Pairwise (fun a b => key a ≤ key b)) :
    (insertBy key x l).Pairwise (fun a b => key a ≤ key b) := by
  induction l with
  | nil => simp [insertBy]
  | cons r rs ih =>
    rw [List.pairwise_cons] at h
    unfold insertBy
    split
    · rename_i hlt
      refine List.pairwise_cons.mpr ⟨?_, List.pairwise_cons.mpr h⟩
      intro y hy
      rcases List.mem_cons.mp hy with rfl | hy
      · omega
      · have := h.1 y hy
        omega
    · rename_i hge
      refine List.pairwise_cons.mpr ⟨?_, ih h.2⟩
      intro y hy
      rcases List.mem_cons.mp ((insertBy_perm key x rs).mem_iff.mp hy) with rfl | hy
      · omega
      · exact h.1 y hy

theorem foldl_insertBy_perm {α : Type} (key : α → Nat) (rows acc : List α) :
    (rows.foldl (fun acc x => insertBy key x acc) acc).Perm (rows ++ acc) := by
  induction rows generalizing acc with
  | nil => exact List.Perm.refl _
  | cons x xs ih =>
    rw [List.foldl_cons]
    refine (ih (insertBy key x acc)).trans ?_
    refine (List.Perm.append_left xs (insertBy_perm key x acc)).trans ?_
    exact List.perm_middle

theorem foldl_insertBy_sorted {α : Type} (key : α → Nat) (rows acc : List α)
    (h : acc.Pairwise (fun a b => key a ≤ key b)) :
    (rows.foldl (fun acc x => insertBy key x acc) acc).Pairwise (fun a b => key a ≤ key b) := by
  induction rows generalizing acc with
  | nil => exact h
  | cons x xs ih =>
    rw [List.foldl_cons]
    exact ih _ (insertBy_sorted key x acc h)

theorem orderBy_perm {α : Type} (key : α → Nat) (rows : List α) :
    (orderBy key rows).Perm rows := by
  have := foldl_insertBy_perm key rows []
  simpa [orderBy] using this

theorem orderBy_sorted {α : Type} (key : α → Nat) (rows : List α) :
    (orderBy key rows).Pairwise (fun a b => key a ≤ key b) :=
  foldl_insertBy_sorted key rows [] List.Pairwise.nil

theorem insertByTimestamp_eq (m : Message) (l : List Message) :
    insertByTimestamp m l = insertBy (fun r => r.timestamp) m l := by
  induction l with
  | nil => rfl
  | cons r rs ih => simp [insertByTimestamp, insertBy, ih]

theorem orderByTimestamp_eq (rows : List Message) :
    orderByTimestamp rows = orderBy (fun r => r.timestamp) rows := by
  unfold orderByTimestamp orderBy
  congr 1
  funext acc m
  exact insertByTimestamp_eq m acc

/-- C14: for every state of `message_queue`, `getMessageQueue` returns exactly the rows with
`attempts < 10` (each as often as the table holds it, none with `attempts ≥ 10`), in ascending
order of `lastAttempt`. -/
theorem getMessageQueue_spec (db : Database) :
    (∀ r, r ∈ getMessageQueue db ↔ r ∈ db.message_queue ∧ r.attempts < 10) ∧
      (getMessageQueue db).Perm (db.message_queue.filter (fun r => r.attempts < 10)) ∧
      (∀ r ∈ getMessageQueue db, ¬ 10 ≤ r.attempts) ∧
      (getMessageQueue db).Pairwise (fun a b => a.lastAttempt ≤ b.lastAttempt) := by
  have hperm : (getMessageQueue db).Perm (db.message_queue.filter (fun r => r.attempts < 10)) :=
    orderBy_perm _ _
  have hmem : ∀ r, r ∈ getMessageQueue db ↔ r ∈ db.message_queue ∧ r.attempts < 10 := by
    intro r
    rw [hperm.mem_iff]
    simp
  refine ⟨hmem, hperm, ?_, orderBy_sorted _ _⟩
  intro r hr
  have := ((hmem r).mp hr).2
  omega

/-! ## Properties of `getMessages` -/

/-- C18: for every message store, group id and current location, `getMessages(groupId, true,
currentLocation)` returns, by ascending timestamp, exactly the rows of that group that are not
proximity-based or whose `proximityLocation` equals `currentLocation`; with no current location
(`null`, `undefined` or the empty string) exactly the non-proximity rows of the group.  So a
row of the group tagged proximity-based at `'loc_1'` is returned for `'loc_1'` and not for
`'loc_2'` or no location, and a non-proximity row of the group is returned for every
location. -/
theorem getMessages_group (db : Database) (g : JSString) (loc : Option JSString) :
    (truthy loc = true →
        (getMessages db (some g) true loc).Perm
            (db.messages.filter (fun m =>
              m.groupId = some g ∧ (m.isProximityBased = 0 ∨ m.proximityLocation = loc))) ∧
          ∀ m, m ∈ getMessages db (some g) true loc ↔
            m ∈ db.messages ∧ m.groupId = some g ∧
              (m.isProximityBased = 0 ∨ m.proximityLocation = loc)) ∧
      (truthy loc = false →
        (getMessages db (some g) true loc).Perm
            (db.messages.filter (fun m => m.groupId = some g ∧ m.isProximityBased = 0)) ∧
          ∀ m, m ∈ getMessages db (some g) true loc ↔
            m ∈ db.messages ∧ m.groupId = some g ∧ m.isProximityBased = 0) ∧
      (getMessages db (some g) true loc).Pairwise (fun a b => a.timestamp ≤ b.timestamp) ∧
      (∀ m ∈ db.messages, m.groupId = some g → m.isProximityBased ≠ 0 →
        m.proximityLocation = some "loc_1".toList →
          m ∈ getMessages db (some g) true (some "loc_1".toList) ∧
            m ∉ getMessages db (some g) true (some "loc_2".toList) ∧
            m ∉ getMessages db (some g) true none) ∧
      (∀ m ∈ db.messages, m.groupId = some g → m.isProximityBased = 0 →
        m ∈ getMessages db (some g) true loc) := by
  have hyes : ∀ l : Option JSString, truthy l = true →
      (getMessages db (some g) true l).Perm
        (db.messages.filter (fun m =>
          m.groupId = some g ∧ (m.isProximityBased = 0 ∨ m.proximityLocation = l))) := by
    intro l hl
    simp only [getMessages, if_true, hl, orderByTimestamp_eq]
    exact orderBy_perm _ _
  have hno : ∀ l : Option JSString, truthy l = false →
      (getMessages db (some g) true l).Perm
        (db.messages.filter (fun m => m.groupId = some g ∧ m.isProximityBased = 0)) := by
    intro l hl
    simp only [getMessages, if_true, hl, orderByTimestamp_eq]
    exact orderBy_perm _ _
  have hyes_mem : ∀ l : Option JSString, truthy l = true → ∀ m,
      m ∈ getMessages db (some g) true l ↔
        m ∈ db.messages ∧ m.groupId = some g ∧
          (m.isProximityBased = 0 ∨ m.proximityLocation = l) := by
    intro l hl m
    rw [(hyes l hl).mem_iff]
    simp
  have hno_mem : ∀ l : Option JSString, truthy l = false → ∀ m,
      m ∈ getMessages db (some g) true l ↔
        m ∈ db.messages ∧ m.groupId = some g ∧ m.isProximityBased = 0 := by
    intro l hl m
    rw [(hno l hl).mem_iff]
    simp
  refine ⟨fun hl => ⟨hyes loc hl, hyes_mem loc hl⟩, fun hl => ⟨hno loc hl, hno_mem loc hl⟩,
    ?_, ?_, ?_⟩
  · cases hl : truthy loc
    · simp only [getMessages, if_true, hl, orderByTimestamp_eq]
      exact orderBy_sorted _ _
    · simp only [getMessages, if_true, hl, orderByTimestamp_eq]
      exact orderBy_sorted _ _
  · intro m hm hg hp hloc
    refine ⟨?_, ?_, ?_⟩
    · exact (hyes_mem _ (by rfl) m).mpr ⟨hm, hg, Or.inr hloc⟩
    · intro h
      rcases ((hyes_mem _ (by rfl) m).mp h).2.2 with h0 | h2
      · exact hp h0
      · rw [hloc] at h2
        exact absurd h2 (by decide)
    · intro h
      exact hp ((hno_mem none (by rfl) m).mp h).2.2
  · intro m hm hg h0
    cases hl : truthy loc
    · exact (hno_mem loc hl m).mpr ⟨hm, hg, h0⟩
    · exact (hyes_mem loc hl m).mpr ⟨hm, hg, Or.inl h0⟩

/-! ## Properties of the registries -/

theorem mapGet_mapSet {K V : Type} [DecidableEq K] (m : JSMap K V) (k a : K) (v : V) :
    mapGet (mapSet m k v) a = if k = a then some v else mapGet m a := by
  induction m with
  | nil => simp [mapSet, mapGet]
  | cons e rest ih =>
    obtain ⟨k1, v1⟩ := e
    unfold mapSet
    by_cases h1 : k1 = k
    · subst h1
      by_cases h2 : k1 = a <;> simp [mapGet, h2]
    · rw [if_neg h1]
      by_cases h2 : k1 = a
      · subst h2
        have h3 : ¬ k = k1 := fun e => h1 e.symm
        simp [mapGet, h3]
      · simp [mapGet, h2, ih]

theorem mapSet_keys {K V : Type} [DecidableEq K] (m : JSMap K V) (k : K) (v : V) :
    (mapSet m k v).map Prod.fst =
      if k ∈ m.map Prod.fst then m.map Prod.fst else m.map Prod.fst ++ [k] := by
  induction m with
  | nil => simp [mapSet]
  | cons e rest ih =>
    obtain ⟨k1, v1⟩ := e
    unfold mapSet
    by_cases h1 : k1 = k
    · subst h1
      simp
    · have h3 : ¬ k = k1 := fun e => h1 e.symm
      rw [if_neg h1, List.map_cons, ih]
      by_cases h2 : k ∈ rest.map Prod.fst
      · simp only [if_pos h2, List.map_cons, List.mem_cons, h3, false_or]
      · simp only [if_neg h2, List.map_cons, List.mem_cons, h3, false_or, List.cons_append]

theorem mapSet_nodup {K V : Type} [DecidableEq K] (m : JSMap K V) (k : K) (v : V)
    (h : (m.map Prod.fst).Nodup) : ((mapSet m k v).map Prod.fst).Nodup := by
  rw [mapSet_keys]
  split
  · exact h
  · rename_i hk
    exact List.Nodup.append h (List.nodup_singleton k) (by simpa using hk)

theorem mapGet_mapDelete {K V : Type} [DecidableEq K] (m : JSMap K V) (k : K) :
    mapGet (mapDelete m k) k = none := by
  induction m with
  | nil => rfl
  | cons e rest ih =>
    obtain ⟨k1, v1⟩ := e
    unfold mapDelete at ih ⊢
    by_cases h1 : k1 = k
    · simpa [List.filter_cons, h1] using ih
    · simpa [List.filter_cons, h1, mapGet] using ih

theorem handleDeviceDiscovered_registry (rpow : JSNumber → JSNumber → JSNumber)
    (env : DiscoveryEnv) (w : World) (p : Peripheral) :
    (handleDeviceDiscovered rpow env w p).bt.discoveredDevices =
      if isPeer p = true then mapSet w.bt.discoveredDevices p.id (discoveryEntry rpow env p)
      else w.bt.discoveredDevices := by
  unfold handleDeviceDiscovered isPeer
  by_cases h : (truthy p.name && startsWith (p.name.getD []) "BCHAT_".toList) = true
  · rw [if_pos h, if_neg]
    · cases hu : w.bt.userId with
      | none => rfl
      | some u => cases u <;> rfl
    · simp only [Bool.and_eq_true] at h
      rw [h.1, h.2]
      decide
  · rw [if_neg h, if_pos]
    simp only [Bool.and_eq_true, not_and, Bool.not_eq_true] at h
    cases ht : truthy p.name
    · rfl
    · rw [h ht]
      rfl

/-- C16: for every sequence of advertisement events handled from a registry with one entry per
address, the registry still holds at most one entry per address, and the entry for an address
is the one written for the most recent prefixed advertisement from that address (its identity,
rssi, `calculateDistance` of that rssi, and `lastSeen`), or the initial entry when there was
none; two prefixed events from one address, handled from an empty registry, leave exactly
one entry, carrying the values of the second. -/
theorem discover_registry (rpow : JSNumber → JSNumber → JSNumber)
    (events : List (DiscoveryEnv × Peripheral)) (w : World)
    (hw : (w.bt.discoveredDevices.map Prod.fst).Nodup) :
    (((discover rpow events w).bt.discoveredDevices.map Prod.fst).Nodup) ∧
      (∀ a, mapGet (discover rpow events w).bt.discoveredDevices a =
        match latestAdvert events a with
        | some e => some (discoveryEntry rpow e.1 e.2)
        | none => mapGet w.bt.discoveredDevices a) ∧
      (∀ e1 e2 : DiscoveryEnv × Peripheral, w.bt.discoveredDevices = [] →
        isPeer e1.2 = true → isPeer e2.2 = true → e1.2.id = e2.2.id →
          getDiscoveredDevices (discover rpow [e1, e2] w) = [discoveryEntry rpow e2.1 e2.2]) := by
  refine ⟨?_, ?_, ?_⟩
  · unfold discover
    induction events generalizing w with
    | nil => exact hw
    | cons e es ih =>
      rw [List.foldl_cons]
      apply ih
      rw [handleDeviceDiscovered_registry]
      split
      · exact mapSet_nodup _ _ _ hw
      · exact hw
  · intro a
    unfold discover
    clear hw
    induction events generalizing w with
    | nil => rfl
    | cons e es ih =>
      rw [List.foldl_cons, ih, latestAdvert]
      cases latestAdvert es a with
      | some x => rfl
      | none =>
        simp only []
        rw [handleDeviceDiscovered_registry]
        by_cases hp : isPeer e.2 = true
        · rw [if_pos hp, mapGet_mapSet]
          by_cases ha : e.2.id = a
          · simp [hp, ha]
          · simp [hp, ha]
        · rw [if_neg hp]
          simp [hp]
  · intro e1 e2 hempty h1 h2 hid
    simp only [discover, List.foldl_cons, List.foldl_nil, getDiscoveredDevices,
      handleDeviceDiscovered_registry, h1, h2, if_true, hempty, hid]
    simp [mapSet]

/-! ## Properties of connecting -/

/-- C20 (evaluated at the failing input, with the behaviour of the code in general):
`connectToDevice` returns the device when the radio library resolved with it and registering
the data listener returned, and `null` otherwise; it never changes `message_queue`; when it
returns a device, `connectedDevices` maps `deviceId` to that device; when the radio library
rejected, `connectedDevices`, the database and the store-call trace are as before.  But when
the listener registration of line 141 throws, it returns `null` although `connectedDevices`
now maps `deviceId` to the device.  At the failing input `u2` was not connected, the call
returns `null`, `u2` is in `connectedDevices`, the contact update has run, and the next
`sendMessage('u2', 'hi')` writes its frame to `u2`, queues nothing and marks the message
`'delivered'`. -/
theorem connectToDevice_listener_throws :
    (∀ (now : Nat) (outcome : Option Device) (listenerOk : Bool) (w : World)
        (deviceId : DeviceId),
        (connectToDevice now outcome listenerOk w deviceId).2 =
            (if listenerOk then outcome else none) ∧
          (connectToDevice now outcome listenerOk w deviceId).1.db.message_queue =
            w.db.message_queue ∧
          (∀ device, (connectToDevice now outcome listenerOk w deviceId).2 = some device →
            mapGet (connectToDevice now outcome listenerOk w deviceId).1.bt.connectedDevices
              deviceId = some device)) ∧
      (∀ (now : Nat) (listenerOk : Bool) (w : World) (deviceId : DeviceId),
        (connectToDevice now none listenerOk w deviceId).2 = none ∧
          (connectToDevice now none listenerOk w deviceId).1.bt.connectedDevices =
            w.bt.connectedDevices ∧
          (connectToDevice now none listenerOk w deviceId).1.db = w.db ∧
          (connectToDevice now none listenerOk w deviceId).1.storeCalls = w.storeCalls) ∧
      (∀ (now : Nat) (device : Device) (w : World) (deviceId : DeviceId),
        (connectToDevice now (some device) false w deviceId).2 = none ∧
          mapGet (connectToDevice now (some device) false w deviceId).1.bt.connectedDevices
            deviceId = some device) ∧
      mapGet sampleWorld.bt.connectedDevices "u2".toList = none ∧
      (connectToDevice 50 (some { address := "u2".toList }) false sampleWorld "u2".toList).2 =
        none ∧
      listenerThrew.bt.connectedDevices ≠ sampleWorld.bt.connectedDevices ∧
      mapGet listenerThrew.bt.connectedDevices "u2".toList = some { address := "u2".toList } ∧
      listenerThrew.storeCalls = [.updateContactStatus] ∧
      framesTo "u2".toList
          (ChatContext.sendMessage sampleEnv listenerThrew (some "u2".toList) "hi".toList
            "text".toList none none).1.radio =
        [JSON.stringify (.message
          (buildMessage sampleEnv alice (some "u2".toList) "hi".toList "text".toList none
            none))] ∧
      (ChatContext.sendMessage sampleEnv listenerThrew (some "u2".toList) "hi".toList
          "text".toList none none).1.db.message_queue = [] ∧
      statusOf (ChatContext.sendMessage sampleEnv listenerThrew (some "u2".toList) "hi".toList
          "text".toList none none).1.db "m1".toList = some "delivered".toList := by
  refine ⟨?_, ?_, ?_, by rfl, by rfl, by decide, by rfl, by rfl, by rfl, by rfl, by rfl⟩
  · intro now outcome listenerOk w deviceId
    cases outcome with
    | none =>
      refine ⟨by cases listenerOk <;> rfl, rfl, ?_⟩
      intro device h
      simp [connectToDevice] at h
    | some d =>
      refine ⟨by cases listenerOk <;> rfl, ?_, ?_⟩
      · unfold connectToDevice
        cases listenerOk <;> cases hu : truthy w.bt.userId <;>
          simp [hu, updateContactStatus]
      · intro device h
        cases listenerOk with
        | false => simp [connectToDevice] at h
        | true =>
          have hd : d = device := by simpa [connectToDevice] using h
          subst hd
          unfold connectToDevice
          cases hu : truthy w.bt.userId <;> simp [hu, mapGet_mapSet]
  · intro now listenerOk w deviceId
    exact ⟨rfl, rfl, rfl, rfl⟩
  · intro now device w deviceId
    refine ⟨rfl, ?_⟩
    unfold connectToDevice
    cases hu : truthy w.bt.userId <;> simp [hu, mapGet_mapSet]

/-! ## Properties of the queue sweep -/

theorem enqueue_store (env : SendEnv) (w : World) (r : Option JSString) (m : Payload) :
    (enqueue env w r m).1.bt = w.bt ∧
      (enqueue env w r m).1.db.messages = w.db.messages ∧
      w.db.message_queue <+: (enqueue env w r m).1.db.message_queue := by
  unfold enqueue
  by_cases hany : w.db.message_queue.any (fun q => q.id = env.queueId) = true
  · have hadd : addToMessageQueue w.db env.queueId env.queueTime m.id r = none := by
      unfold addToMessageQueue
      rw [if_pos hany]
    rw [hadd]
    exact ⟨rfl, rfl, List.prefix_refl _⟩
  · have hadd : addToMessageQueue w.db env.queueId env.queueTime m.id r =
        some { w.db with
          message_queue := w.db.message_queue ++
            [{ id := env.queueId, messageId := m.id, recipientId := r, attempts := 0,
               lastAttempt := env.queueTime }] } := by
      unfold addToMessageQueue
      rw [if_neg hany]
    rw [hadd]
    exact ⟨rfl, rfl, List.prefix_append _ _⟩

theorem sendMessage_store (env : SendEnv) (w : World) (r : Option JSString) (m : Payload) :
    (BluetoothService.sendMessage env w r m).1.bt = w.bt ∧
      (BluetoothService.sendMessage env w r m).1.db.messages = w.db.messages ∧
      w.db.message_queue <+: (BluetoothService.sendMessage env w r m).1.db.message_queue := by
  unfold BluetoothService.sendMessage
  cases hd : r.bind (mapGet w.bt.connectedDevices) with
  | none => exact enqueue_store env w r m
  | some device =>
    simp only []
    cases hc : writeChunks env.writeOk device.address 0 (chunkMessage (JSON.stringify m))
        w.radio with
    | mk radio ok =>
      cases ok with
      | true => exact ⟨rfl, rfl, List.prefix_refl _⟩
      | false => exact enqueue_store env { w with radio := radio } r m

theorem sweepLoop_store (env : Nat → SendEnv) (k : Nat) (queue : List QueueRow) (w : World) :
    (sweepLoop env k queue w).db.messages = w.db.messages ∧
      w.db.message_queue <+: (sweepLoop env k queue w).db.message_queue := by
  induction queue generalizing k w with
  | nil => exact ⟨rfl, List.prefix_refl _⟩
  | cons item rest ih =>
    unfold sweepLoop
    split
    · obtain ⟨_, h2, h3⟩ := sendMessage_store (env k) w item.recipientId (.idOnly item.messageId)
      obtain ⟨i1, i2⟩ := ih (k + 1)
        (BluetoothService.sendMessage (env k) w item.recipientId (.idOnly item.messageId)).1
      exact ⟨i1.trans h2, h3.trans i2⟩
    · exact ih (k + 1) w

theorem processMessageQueue_store (env : Nat → SendEnv) (w : World) :
    (processMessageQueue env w).db.messages = w.db.messages ∧
      w.db.message_queue <+: (processMessageQueue env w).db.message_queue :=
  sweepLoop_store env 0 _ _

/-- C11 at a concrete input: user `u1` sends `'hi'` to the connected `u2` and the first write
is rejected. -/
theorem sendMessage_write_failure_witness :
    (BluetoothService.sendMessage failingEnv.send connectedWorld (some "u2".toList)
          (.message (buildMessage failingEnv { id := "u1".toList, username := "alice".toList }
            (some "u2".toList) "hi".toList "text".toList none none))).2 = .ok false ∧
      (ChatContext.sendMessage failingEnv connectedWorld (some "u2".toList) "hi".toList
          "text".toList none none).2 = .success "m1".toList ∧
      (ChatContext.sendMessage failingEnv connectedWorld (some "u2".toList) "hi".toList
          "text".toList none none).1.db.message_queue =
        [{ id := "q1".toList, messageId := "m1".toList, recipientId := some "u2".toList,
           attempts := 0, lastAttempt := 101 }] ∧
      (ChatContext.sendMessage failingEnv connectedWorld (some "u2".toList) "hi".toList
          "text".toList none none).1.storeCalls =
        [.updateContactStatus, .saveMessage, .getMessages, .addToMessageQueue] :=
  have h := sendMessage_write_failure failingEnv connectedWorld
    { id := "u1".toList, username := "alice".toList } "u2".toList { address := "u2".toList }
    "hi".toList "text".toList none none rfl rfl ⟨0, by decide, rfl⟩
    (by intro m hm; cases hm) (by intro q hq; cases hq)
  ⟨h.1, h.2.2.1, h.2.2.2.2.2.1, h.2.2.2.2.2.2⟩

/-- C12 (evaluated at the failing input): `u1` sends `'hi'` to `u2` while `u2` is not connected,
`u2` then connects, and the sweep runs with every write resolving.  The resend returns `true`
and the frame `'{"id":"m1"}'` is written, yet after the sweep the queue row is still in
`message_queue`, the stored status is still `'sent'`, and neither `removeFromQueue` nor
`updateMessageStatus` was called. -/
theorem processMessageQueue_resend_ok :
    reconnected.db.message_queue =
        [{ id := "q1".toList, messageId := "m1".toList, recipientId := some "u2".toList,
           attempts := 0, lastAttempt := 101 }] ∧
      mapGet reconnected.bt.connectedDevices "u2".toList = some { address := "u2".toList } ∧
      (BluetoothService.sendMessage (sweepOk 0) reconnected (some "u2".toList)
          (.idOnly "m1".toList)).2 = .ok true ∧
      (processMessageQueue sweepOk reconnected).db.message_queue =
        [{ id := "q1".toList, messageId := "m1".toList, recipientId := some "u2".toList,
           attempts := 0, lastAttempt := 101 }] ∧
      (processMessageQueue sweepOk reconnected).db.messages.map (fun m => (m.id, m.status)) =
        [("m1".toList, "sent".toList)] ∧
      (processMessageQueue sweepOk reconnected).storeCalls =
        reconnected.storeCalls ++ [.getMessageQueue] ∧
      (processMessageQueue sweepOk reconnected).radio =
        reconnected.radio ++ [.write "u2".toList "\x7b\"id\":\"m1\"\x7d".toList] := by
  refine ⟨by rfl, by rfl, by rfl, by rfl, by rfl, by rfl, by rfl⟩

/-- C13 (evaluated at the failing input): the queued row stands at nine attempts, its recipient
is connected, and the sweep runs with every write rejected.  The row keeps `attempts = 9` and
its `lastAttempt`, a second row for the same message is appended with `attempts = 0`, the next
`getMessageQueue` returns both, and `updateQueueAttempt` was not called; called on that row it
would have set `attempts = 10` and excluded the row from `getMessageQueue`. -/
theorem processMessageQueue_resend_fails :
    nineAttempts.db.message_queue =
        [{ id := "q1".toList, messageId := "m1".toList, recipientId := some "u2".toList,
           attempts := 9, lastAttempt := 101 }] ∧
      mapGet nineAttempts.bt.connectedDevices "u2".toList = some { address := "u2".toList } ∧
      (BluetoothService.sendMessage (sweepFailing 0) nineAttempts (some "u2".toList)
          (.idOnly "m1".toList)).2 = .ok false ∧
      (processMessageQueue sweepFailing nineAttempts).db.message_queue =
        [{ id := "q1".toList, messageId := "m1".toList, recipientId := some "u2".toList,
           attempts := 9, lastAttempt := 101 },
         { id := "q2".toList, messageId := "m1".toList, recipientId := some "u2".toList,
           attempts := 0, lastAttempt := 200 }] ∧
      getMessageQueue (processMessageQueue sweepFailing nineAttempts).db =
        [{ id := "q1".toList, messageId := "m1".toList, recipientId := some "u2".toList,
           attempts := 9, lastAttempt := 101 },
         { id := "q2".toList, messageId := "m1".toList, recipientId := some "u2".toList,
           attempts := 0, lastAttempt := 200 }] ∧
      (processMessageQueue sweepFailing nineAttempts).storeCalls =
        nineAttempts.storeCalls ++ [.getMessageQueue, .addToMessageQueue] ∧
      (updateQueueAttempt nineAttempts.db 200 "q1".toList).message_queue =
        [{ id := "q1".toList, messageId := "m1".toList, recipientId := some "u2".toList,
           attempts := 10, lastAttempt := 200 }] ∧
      getMessageQueue (updateQueueAttempt nineAttempts.db 200 "q1".toList) = [] := by
  refine ⟨by rfl, by rfl, by rfl, by rfl, by rfl, by rfl, by rfl, by rfl⟩

/-- C15 (evaluated at the failing input): starting from an empty queue, `u1` sends `'hi'` to the
connected `u2` with every write rejected (one row for `m1`), then the sweep runs with every
write rejected: `message_queue` then holds two rows for message `m1`, both with
`attempts = 0 < 10`. -/
theorem processMessageQueue_duplicate_rows :
    connectedWorld.db.message_queue = [] ∧
      writeFailed.db.message_queue =
        [{ id := "q1".toList, messageId := "m1".toList, recipientId := some "u2".toList,
           attempts := 0, lastAttempt := 101 }] ∧
      (processMessageQueue sweepFailing writeFailed).db.message_queue =
        [{ id := "q1".toList, messageId := "m1".toList, recipientId := some "u2".toList,
           attempts := 0, lastAttempt := 101 },
         { id := "q2".toList, messageId := "m1".toList, recipientId := some "u2".toList,
           attempts := 0, lastAttempt := 200 }] ∧
      ((processMessageQueue sweepFailing writeFailed).db.message_queue.filter
          (fun q => q.messageId = "m1".toList ∧ q.attempts < 10)).length = 2 := by
  refine ⟨by rfl, by rfl, by rfl, by rfl⟩

/-- C16 at a concrete input: two advertisements from `'AA:BB'`, at signal strengths -59 and
-70, handled from the empty registry. -/
theorem discover_registry_witness :
    (((discover (fun x _ => x)
          [(⟨10, "c1".toList, 11⟩, bobAdvert), (⟨20, "c2".toList, 21⟩, bobAdvertLater)]
          sampleWorld).bt.discoveredDevices.map Prod.fst).Nodup) ∧
      getDiscoveredDevices (discover (fun x _ => x)
          [(⟨10, "c1".toList, 11⟩, bobAdvert), (⟨20, "c2".toList, 21⟩, bobAdvertLater)]
          sampleWorld) =
        [{ userId := "u2".toList, username := "bob".toList, profilePic := none,
           deviceAddress := "AA:BB".toList,
           distance := calculateDistance (fun x _ => x) (-70), rssi := -70, lastSeen := 20 }] :=
  have h := discover_registry (fun x _ => x)
    [(⟨10, "c1".toList, 11⟩, bobAdvert), (⟨20, "c2".toList, 21⟩, bobAdvertLater)] sampleWorld
    List.nodup_nil
  ⟨h.1, h.2.2 (⟨10, "c1".toList, 11⟩, bobAdvert) (⟨20, "c2".toList, 21⟩, bobAdvertLater)
    rfl (by decide) (by decide) rfl⟩

/-! ## Properties of the contact store -/

theorem saveContact_fresh (db : Database) (contactId : JSString) (now : Nat)
    (userId : JSString) (contact : Contact) (h : ∀ r ∈ db.contacts, r.id ≠ contactId) :
    (saveContact db contactId now userId contact).contacts =
      db.contacts ++
        [{ id := contactId, userId := userId, contactId := contact.id,
           contactName := contact.name, contactProfilePic := contact.profilePic,
           deviceAddress := contact.deviceAddress, lastSeen := now, isOnline := 1,
           distance := some contact.distance }] := by
  unfold saveContact
  simp only [List.append_cancel_right_eq, List.filter_eq_self]
  intro r hr
  simpa using h r hr

/-- C17 (evaluated at the failing input): two `saveContact` calls for user `u1` carrying the
same `deviceAddress` `'AA:BB'`, with generated row ids `c1` and `c2`, leave two rows for that
address, the first still holding the data of the first call; the same happens when two
advertisements from one address are handled, while the registry holds one entry. -/
theorem saveContact_twice :
    (saveContact (saveContact sampleWorld.db "c1".toList 10 "u1".toList (bobContact 2))
        "c2".toList 20 "u1".toList (bobContact 3)).contacts =
        [{ id := "c1".toList, userId := "u1".toList, contactId := "u2".toList,
           contactName := "bob".toList, contactProfilePic := none,
           deviceAddress := "AA:BB".toList, lastSeen := 10, isOnline := 1, distance := some 2 },
         { id := "c2".toList, userId := "u1".toList, contactId := "u2".toList,
           contactName := "bob".toList, contactProfilePic := none,
           deviceAddress := "AA:BB".toList, lastSeen := 20, isOnline := 1, distance := some 3 }] ∧
      ((saveContact (saveContact sampleWorld.db "c1".toList 10 "u1".toList (bobContact 2))
        "c2".toList 20 "u1".toList (bobContact 3)).contacts.filter
          (fun r => r.deviceAddress = "AA:BB".toList)).length = 2 ∧
      ((discover (fun x _ => x)
          [(⟨10, "c1".toList, 11⟩, bobAdvert), (⟨20, "c2".toList, 21⟩, bobAdvertLater)]
          sampleWorld).db.contacts.map (fun r => (r.id, r.deviceAddress, r.lastSeen))) =
        [("c1".toList, "AA:BB".toList, 11), ("c2".toList, "AA:BB".toList, 21)] ∧
      (getDiscoveredDevices (discover (fun x _ => x)
          [(⟨10, "c1".toList, 11⟩, bobAdvert), (⟨20, "c2".toList, 21⟩, bobAdvertLater)]
          sampleWorld)).length = 1 := by
  refine ⟨by rfl, by rfl, by rfl, by rfl⟩

theorem updateContactStatus_other (db : Database) (now : Nat) (contactId : JSString)
    (isOnline : Bool) (distance : Option JSNumber)
    (h : ∀ r ∈ db.contacts, r.contactId ≠ contactId) :
    updateContactStatus db now contactId isOnline distance = db := by
  unfold updateContactStatus
  have hmap : db.contacts.map (fun r =>
      if r.contactId = contactId then
        { r with isOnline := if isOnline then 1 else 0, distance := distance, lastSeen := now }
      else r) = db.contacts := by
    conv_rhs => rw [← List.map_id db.contacts]
    apply List.map_congr_left
    intro r hr
    rw [if_neg (h r hr)]
    rfl
  rw [hmap]

/-- C19 (evaluated at the failing input): peer `u2` was discovered at address `'AA:BB'` (its
contact row has `contactId = 'u2'`, `deviceAddress = 'AA:BB'`, `isOnline = 1`, distance 1) and
connected; the local user id is set.  After `handleDeviceDisconnected` for `'AA:BB'`,
`connectedDevices` has no entry for the address and `updateContactStatus` was called, but with
the address as `contactId`: the contact row of that address is unchanged, still `isOnline = 1`
with its distance. -/
theorem handleDeviceDisconnected_contact_unchanged :
    bobConnected.bt.userId = some "u1".toList ∧
      mapGet bobConnected.bt.connectedDevices "AA:BB".toList =
        some { address := "AA:BB".toList } ∧
      bobConnected.db.contacts =
        [{ id := "c1".toList, userId := "u1".toList, contactId := "u2".toList,
           contactName := "bob".toList, contactProfilePic := none,
           deviceAddress := "AA:BB".toList, lastSeen := 11, isOnline := 1,
           distance := some (calculateDistance (fun x _ => x) (-59)) }] ∧
      calculateDistance (fun x _ => x) (-59) = 1 ∧
      mapGet (handleDeviceDisconnected 30 bobConnected "AA:BB".toList).bt.connectedDevices
        "AA:BB".toList = none ∧
      (handleDeviceDisconnected 30 bobConnected "AA:BB".toList).storeCalls =
        bobConnected.storeCalls ++ [.updateContactStatus] ∧
      (handleDeviceDisconnected 30 bobConnected "AA:BB".toList).db.contacts =
        bobConnected.db.contacts := by
  refine ⟨by rfl, by rfl, by rfl, ?_, by rfl, by rfl, by rfl⟩
  rw [calculateDistance_far _ (-59) (by decide) (by norm_num)]
  unfold Math.round
  have hfl : ⌊((0.89976 : ℚ) * (((-59 : Int) : ℚ) / (-59)) + 0.111) * 10 + 1 / 2⌋ = 10 := by
    rw [Int.floor_eq_iff]
    constructor <;> norm_num
  rw [hfl]
  norm_num

/-! ## Properties of disconnecting and scanning -/

theorem disconnectDevice_absent (now : Nat) (ok : Bool) (w : World) (deviceId : DeviceId)
    (h : mapGet w.bt.connectedDevices deviceId = none) :
    disconnectDevice now ok w deviceId = w := by
  unfold disconnectDevice
  rw [h]

theorem disconnectDevice_removes (now : Nat) (w : World) (deviceId : DeviceId) :
    mapGet (disconnectDevice now true w deviceId).bt.connectedDevices deviceId = none := by
  cases h : mapGet w.bt.connectedDevices deviceId with
  | none => rw [disconnectDevice_absent now true w deviceId h, h]
  | some device =>
    unfold disconnectDevice
    rw [h]
    cases hu : truthy w.bt.userId <;> simp [hu, mapGet_mapDelete]

/-- C21: `disconnectDevice` for an address with no entry in `connectedDevices` leaves the world
as it was (so `connectedDevices` is unchanged and neither `device.disconnect()` nor
`updateContactStatus` is called); hence after a disconnect that resolved and removed the entry,
a second `disconnectDevice` of the same address changes nothing. -/
theorem disconnectDevice_idempotent (now : Nat) (ok : Bool) (w : World) (deviceId : DeviceId) :
    (mapGet w.bt.connectedDevices deviceId = none →
        disconnectDevice now ok w deviceId = w ∧
          (disconnectDevice now ok w deviceId).bt.connectedDevices = w.bt.connectedDevices ∧
          (disconnectDevice now ok w deviceId).radio = w.radio ∧
          (disconnectDevice now ok w deviceId).storeCalls = w.storeCalls ∧
          (disconnectDevice now ok w deviceId).db = w.db) ∧
      (∀ (now2 : Nat) (ok2 : Bool),
        disconnectDevice now2 ok2 (disconnectDevice now true w deviceId) deviceId =
          disconnectDevice now true w deviceId) := by
  refine ⟨?_, ?_⟩
  · intro h
    rw [disconnectDevice_absent now ok w deviceId h]
    exact ⟨rfl, rfl, rfl, rfl, rfl⟩
  · intro now2 ok2
    exact disconnectDevice_absent now2 ok2 _ deviceId (disconnectDevice_removes now w deviceId)

/-- C28: when `isScanning` is already true, `startDiscovery` leaves the world as it was: no
scan is issued to the radio, and `isScanning` and both registries are unchanged. -/
theorem startDiscovery_coalesced (scanOk : Bool) (w : World) (h : w.bt.isScanning = true) :
    startDiscovery scanOk w = w ∧
      (startDiscovery scanOk w).radio = w.radio ∧
      (startDiscovery scanOk w).bt.isScanning = true ∧
      (startDiscovery scanOk w).bt.discoveredDevices = w.bt.discoveredDevices ∧
      (startDiscovery scanOk w).bt.connectedDevices = w.bt.connectedDevices := by
  have key : startDiscovery scanOk w = w := by
    unfold startDiscovery
    rw [if_pos h]
  rw [key]
  exact ⟨rfl, rfl, h, rfl, rfl⟩

/-- C28 at a concrete input: a second scan request while the first scan is running. -/
theorem startDiscovery_coalesced_witness :
    startDiscovery true (startDiscovery true sampleWorld) = startDiscovery true sampleWorld ∧
      (startDiscovery true (startDiscovery true sampleWorld)).radio = [.scan] :=
  have h := startDiscovery_coalesced true (startDiscovery true sampleWorld) rfl
  ⟨h.1, h.2.1⟩

/-! ## Properties of undecodable data -/

/-- C27: when `JSON.parse` fails on the payload, `handleDataReceived` returns normally and
leaves the world as it was: the callback is not invoked and `discoveredDevices` and
`connectedDevices` are unchanged. -/
theorem handleDataReceived_undecodable (w : World) (deviceId : DeviceId) (data : JSString)
    (h : JSON.parse data = none) :
    handleDataReceived w deviceId data = w ∧
      (handleDataReceived w deviceId data).received = w.received ∧
      (handleDataReceived w deviceId data).bt.discoveredDevices = w.bt.discoveredDevices ∧
      (handleDataReceived w deviceId data).bt.connectedDevices = w.bt.connectedDevices := by
  have key : handleDataReceived w deviceId data = w := by
    unfold handleDataReceived
    rw [h]
  rw [key]
  exact ⟨rfl, rfl, rfl, rfl⟩

/-- C27 at a concrete input: the payload `'not json'` with a callback registered. -/
theorem handleDataReceived_undecodable_witness :
    handleDataReceived sampleWorld "AA:BB".toList "not json".toList = sampleWorld ∧
      (handleDataReceived sampleWorld "AA:BB".toList "not json".toList).received = [] :=
  have h := handleDataReceived_undecodable sampleWorld "AA:BB".toList "not json".toList
    (by rfl)
  ⟨h.1, h.2.1⟩

/-! ## Properties of inbound messages -/

theorem handleMessageReceived_notifications (captured : ChatState) (w : World)
    (deviceId : DeviceId) (message : Message) :
    (handleMessageReceived captured w deviceId message).notifications =
      match saveMessage w.db message with
      | none => w.notifications
      | some _ =>
        if captured.activeChat ≠ some message.senderId ∧
            captured.activeChat ≠ message.groupId then
          if captured.isInApp then w.notifications
          else w.notifications ++ [notifierCall captured message]
        else w.notifications := by
  unfold handleMessageReceived
  cases hs : saveMessage w.db message with
  | none => rfl
  | some db =>
    simp only []
    by_cases hc : captured.activeChat ≠ some message.senderId ∧
        captured.activeChat ≠ message.groupId
    · rw [if_pos hc, if_pos hc]
      cases hi : captured.isInApp <;> cases hg : truthy message.groupId <;>
        simp [loadMessages]
    · rw [if_neg hc, if_neg hc]
      cases hg : truthy message.groupId <;> simp [loadMessages]

/-- C22 (evaluated at the failing input, with the behaviour of the code in general): the
registered callback is the closure of the render in which `user` last changed, so a later
`setActiveChat` has no effect on whether it calls the notifier.  At the failing input the
registered closure captured no open chat and the application in the background; the chat of
group `g1` is then opened, so `activeChat` equals the `groupId` of the inbound message `m8`;
the registered callback nevertheless calls `showGroupMessageNotification` for `g1`, while the
closure of the current render would make no notifier call. -/
theorem invokeCallback_stale_activeChat :
    (∀ (w : World) (chatId : Option JSString) (deviceId : DeviceId) (message : Message),
        (invokeCallback (setActiveChat w chatId) deviceId message).notifications =
          (invokeCallback w deviceId message).notifications) ∧
      groupChatOpen.bt.onMessageReceived.map (fun c => (c.activeChat, c.isInApp)) =
        some (none, false) ∧
      groupChatOpen.chat.activeChat = some "g1".toList ∧
      groupChatOpen.chat.activeChat = inboundGroupMessage.groupId ∧
      (invokeCallback groupChatOpen "AA:BB".toList inboundGroupMessage).notifications =
        [.showGroupMessageNotification "Group".toList "Someone".toList "hello all".toList
          "g1".toList] ∧
      (handleMessageReceived groupChatOpen.chat groupChatOpen "AA:BB".toList
        inboundGroupMessage).notifications = [] := by
  refine ⟨?_, by rfl, by rfl, by rfl, by rfl, by rfl⟩
  intro w chatId deviceId message
  unfold invokeCallback
  cases hcb : w.bt.onMessageReceived with
  | none =>
    have h1 : (setActiveChat w chatId).bt.onMessageReceived = none := hcb
    rw [h1]
    rfl
  | some captured =>
    have h1 : (setActiveChat w chatId).bt.onMessageReceived = some captured := hcb
    rw [h1]
    simp only [handleMessageReceived_notifications]
    rfl

/-! ## Monotonicity of the distance estimator -/

theorem Math.round_mono (x y : JSNumber) (h : x ≤ y) : Math.round x ≤ Math.round y := by
  unfold Math.round
  have : ⌊x + 1 / 2⌋ ≤ ⌊y + 1 / 2⌋ := Int.floor_mono (by linarith)
  exact_mod_cast this

theorem ratio_antitone (a b : Int) (h : a ≤ b) : (b : ℚ) / (-59) ≤ (a : ℚ) / (-59) := by
  have hq : (a : ℚ) ≤ (b : ℚ) := by exact_mod_cast h
  rw [div_le_div_right_of_neg (by norm_num)]
  exact hq

theorem calculateDistance_far_ge_one (rpow : JSNumber → JSNumber → JSNumber)
    (hone : ∀ x : JSNumber, 1 ≤ x → 1 ≤ rpow x 7.7095) (a : Int) (h0 : a ≠ 0)
    (h : ¬ (a : ℚ) / (-59) < 1) : 1 ≤ calculateDistance rpow a := by
  rw [calculateDistance_far rpow a h0 h]
  have hp := hone ((a : ℚ) / (-59)) (not_lt.mp h)
  unfold Math.round
  have hfl : (10 : ℤ) ≤ ⌊(0.89976 * rpow ((a : ℚ) / (-59)) 7.7095 + 0.111) * 10 + 1 / 2⌋ := by
    apply Int.le_floor.mpr
    push_cast
    nlinarith
  have hq : (10 : ℚ) ≤
      ((⌊(0.89976 * rpow ((a : ℚ) / (-59)) 7.7095 + 0.111) * 10 + 1 / 2⌋ : ℤ) : ℚ) := by
    exact_mod_cast hfl
  linarith

/-- C30: for negative signal strengths `a ≤ b < 0`, `calculateDistance(a) ≥
calculateDistance(b)`, also when `a` and `b` lie on different sides of `rssi = -59`.  The
real-exponent power is assumed monotone and at least 1 on arguments not below 1. -/
theorem calculateDistance_monotone (rpow : JSNumber → JSNumber → JSNumber)
    (hmono : ∀ x y : JSNumber, 1 ≤ x → x ≤ y → rpow x 7.7095 ≤ rpow y 7.7095)
    (hone : ∀ x : JSNumber, 1 ≤ x → 1 ≤ rpow x 7.7095)
    (a b : Int) (hab : a ≤ b) (hb : b < 0) :
    calculateDistance rpow b ≤ calculateDistance rpow a := by
  have ha0 : a ≠ 0 := by omega
  have hb0 : b ≠ 0 := by omega
  have hr := ratio_antitone a b hab
  have hbpos : (0 : ℚ) ≤ (b : ℚ) / (-59) := by
    have hbq : (b : ℚ) ≤ 0 := by exact_mod_cast hb.le
    exact div_nonneg_of_nonpos hbq (by norm_num)
  by_cases hbn : (b : ℚ) / (-59) < 1
  · by_cases han : (a : ℚ) / (-59) < 1
    · rw [calculateDistance_near rpow a ha0 han, calculateDistance_near rpow b hb0 hbn]
      exact pow_le_pow_left₀ hbpos hr 10
    · have h1 := calculateDistance_far_ge_one rpow hone a ha0 han
      rw [calculateDistance_near rpow b hb0 hbn]
      have hlt : ((b : ℚ) / (-59)) ^ 10 ≤ 1 := pow_le_one₀ hbpos hbn.le
      linarith
  · have han : ¬ (a : ℚ) / (-59) < 1 := by
      rw [not_lt] at hbn ⊢
      linarith
    rw [calculateDistance_far rpow a ha0 han, calculateDistance_far rpow b hb0 hbn]
    have hp := hmono _ _ (not_lt.mp hbn) hr
    apply div_le_div_of_nonneg_right _ (by norm_num)
    apply Math.round_mono
    nlinarith

/-- C30 at a concrete input: signal strengths -70 and -40, on different sides of -59. -/
theorem calculateDistance_monotone_witness :
    calculateDistance (fun x _ => x) (-40) ≤ calculateDistance (fun x _ => x) (-70) :=
  calculateDistance_monotone (fun x _ => x) (fun _ _ _ h => h) (fun _ h => h) (-70) (-40)
    (by decide) (by decide)

/-! ## The messages table across operations -/

theorem updateMessageStatus_delivered (db : Database) (id : JSString) :
    (updateMessageStatus db id "delivered".toList).messages = db.messages.map (deliver id) := by
  unfold updateMessageStatus deliver
  rfl

theorem saveMessage_some (db db1 : Database) (message : Message)
    (h : saveMessage db message = some db1) :
    db1.messages = db.messages ++
      [{ message with isProximityBased := if message.isProximityBased ≠ 0 then 1 else 0 }] := by
  unfold saveMessage at h
  split at h
  · cases h
  · cases h
    rfl

theorem enqueue_chat (env : SendEnv) (w : World) (r : Option JSString) (m : Payload) :
    (enqueue env w r m).1.chat = w.chat ∧
      (enqueue env w r m).1.notifications = w.notifications := by
  unfold enqueue
  cases addToMessageQueue w.db env.queueId env.queueTime m.id r with
  | none => exact ⟨rfl, rfl⟩
  | some db => exact ⟨rfl, rfl⟩

theorem sendMessage_chat (env : SendEnv) (w : World) (r : Option JSString) (m : Payload) :
    (BluetoothService.sendMessage env w r m).1.chat = w.chat ∧
      (BluetoothService.sendMessage env w r m).1.notifications = w.notifications := by
  unfold BluetoothService.sendMessage
  cases hd : r.bind (mapGet w.bt.connectedDevices) with
  | none => exact enqueue_chat env w r m
  | some device =>
    simp only []
    cases hc : writeChunks env.writeOk device.address 0 (chunkMessage (JSON.stringify m))
        w.radio with
    | mk radio ok =>
      cases ok with
      | true => exact ⟨rfl, rfl⟩
      | false => exact enqueue_chat env { w with radio := radio } r m

theorem finishSend_shape (env : ChatEnv) (w3 : World) (r : Option JSString)
    (message : Message) :
    (finishSend env (BluetoothService.sendMessage env.send w3 r (.message message))).1.chat =
        w3.chat ∧
      (finishSend env (BluetoothService.sendMessage env.send w3 r (.message message))).1.notifications =
        w3.notifications ∧
      ((finishSend env (BluetoothService.sendMessage env.send w3 r
            (.message message))).1.db.messages = w3.db.messages ∨
        (finishSend env (BluetoothService.sendMessage env.send w3 r
            (.message message))).1.db.messages = w3.db.messages.map (deliver env.messageId)) := by
  have hst := sendMessage_store env.send w3 r (.message message)
  have hch := sendMessage_chat env.send w3 r (.message message)
  cases hs : BluetoothService.sendMessage env.send w3 r (.message message) with
  | mk w4 res =>
    rw [hs] at hst hch
    simp only at hst hch
    cases res with
    | error e => exact ⟨hch.1, hch.2, Or.inl hst.2.1⟩
    | ok sent =>
      cases sent with
      | false => exact ⟨hch.1, hch.2, Or.inl hst.2.1⟩
      | true =>
        refine ⟨hch.1, hch.2, Or.inr ?_⟩
        simp only [finishSend, if_true, updateMessageStatus_delivered, hst.2.1]

theorem ChatContext.sendMessage_eq (env : ChatEnv) (w : World) (user : User)
    (r : Option JSString) (content messageType : JSString) (filePath g : Option JSString)
    (db1 : Database) (huser : w.chat.user = some user)
    (hsave : saveMessage w.db (buildMessage env user r content messageType filePath g) =
      some db1) :
    ChatContext.sendMessage env w r content messageType filePath g =
      finishSend env (BluetoothService.sendMessage env.send
        (loadMessages { w with storeCalls := w.storeCalls ++ [.saveMessage], db := db1 }
          (if truthy g then g else r) (truthy g)) r
        (.message (buildMessage env user r content messageType filePath g))) := by
  unfold ChatContext.sendMessage finishSend
  simp only [huser, hsave]
  cases hg : truthy g <;> rfl

theorem ChatContext.sendMessage_shape (env : ChatEnv) (w : World) (user : User)
    (r : Option JSString) (content messageType : JSString) (filePath g : Option JSString)
    (huser : w.chat.user = some user) (hfresh : ∀ m ∈ w.db.messages, m.id ≠ env.messageId) :
    (ChatContext.sendMessage env w r content messageType filePath g).1.chat.messages =
        mapSet w.chat.messages (chatKey (if truthy g then g else r))
          (getMessages
            { w.db with messages := w.db.messages ++
              [buildMessage env user r content messageType filePath g] }
            (if truthy g then g else r) (truthy g) none) ∧
      ((ChatContext.sendMessage env w r content messageType filePath g).1.db.messages =
          w.db.messages ++ [buildMessage env user r content messageType filePath g] ∨
        (ChatContext.sendMessage env w r content messageType filePath g).1.db.messages =
          (w.db.messages ++ [buildMessage env user r content messageType filePath g]).map
            (deliver env.messageId)) := by
  have hsave := saveMessage_fresh w.db
    (buildMessage env user r content messageType filePath g) hfresh
  rw [buildMessage_stored] at hsave
  rw [ChatContext.sendMessage_eq env w user r content messageType filePath g _ huser hsave]
  have h := finishSend_shape env
    (loadMessages { w with
      storeCalls := w.storeCalls ++ [.saveMessage]
      db := { w.db with messages := w.db.messages ++
        [buildMessage env user r content messageType filePath g] } }
      (if truthy g then g else r) (truthy g)) r
    (buildMessage env user r content messageType filePath g)
  exact ⟨by rw [h.1]; rfl, h.2.2⟩

theorem deliver_fields (id : JSString) (r : Message) :
    (deliver id r).id = r.id ∧ (deliver id r).recipientId = r.recipientId ∧
      (deliver id r).groupId = r.groupId ∧
      (deliver id r).isProximityBased = r.isProximityBased ∧
      (deliver id r).proximityLocation = r.proximityLocation := by
  unfold deliver
  split <;> exact ⟨rfl, rfl, rfl, rfl, rfl⟩

/-! ## Properties of the message built by the provider -/

/-- C24 (amended): the message built by `ChatContext.sendMessage` has exactly one of
`recipientId` and `groupId` non-null exactly when `groupId` is a non-empty string, or `groupId`
is the empty string and `recipientId` is absent, or `groupId` is absent and `recipientId` is
given; and when a user is logged in and the generated id is new, the row persisted under that
id carries the `recipientId` and `groupId` of the message built. -/
theorem buildMessage_one_target (env : ChatEnv) (w : World) (user : User)
    (r : Option JSString) (content messageType : JSString) (filePath g : Option JSString) :
    ((((buildMessage env user r content messageType filePath g).recipientId ≠ none ∧
          (buildMessage env user r content messageType filePath g).groupId = none) ∨
        ((buildMessage env user r content messageType filePath g).recipientId = none ∧
          (buildMessage env user r content messageType filePath g).groupId ≠ none)) ↔
        (truthy g = true ∨ (g = some [] ∧ r = none) ∨ (g = none ∧ r ≠ none))) ∧
      (w.chat.user = some user → (∀ m ∈ w.db.messages, m.id ≠ env.messageId) →
        ∃ row ∈ (ChatContext.sendMessage env w r content messageType filePath g).1.db.messages,
          row.id = env.messageId ∧
            row.recipientId =
              (buildMessage env user r content messageType filePath g).recipientId ∧
            row.groupId = (buildMessage env user r content messageType filePath g).groupId) := by
  refine ⟨?_, ?_⟩
  · unfold buildMessage
    cases g with
    | none => cases r <;> simp [truthy]
    | some gs =>
      cases gs with
      | nil => cases r <;> simp [truthy]
      | cons c cs => cases r <;> simp [truthy]
  · intro huser hfresh
    rcases (ChatContext.sendMessage_shape env w user r content messageType filePath g huser
      hfresh).2 with h | h
    · refine ⟨buildMessage env user r content messageType filePath g, ?_, rfl, rfl, rfl⟩
      rw [h]
      simp
    · refine ⟨deliver env.messageId (buildMessage env user r content messageType filePath g),
        ?_, ?_⟩
      · rw [h]
        exact List.mem_map_of_mem _ (by simp)
      · have hd := deliver_fields env.messageId
          (buildMessage env user r content messageType filePath g)
        exact ⟨hd.1, hd.2.1, hd.2.2.1⟩

/-- C24 (as stated) fails: `sendMessage(null, 'hi')` with no `groupId` builds and stores a
message whose `recipientId` and `groupId` are both null. -/
theorem buildMessage_one_target_counterexample :
    (ChatContext.sendMessage sampleEnv sampleWorld none "hi".toList "text".toList none
        none).1.db.messages.map (fun m => (m.id, m.recipientId, m.groupId)) =
      [("m1".toList, none, none)] := by
  rfl

theorem getMessages_group_none_mem (db : Database) (g : JSString) (row : Message) :
    row ∈ getMessages db (some g) true none ↔
      row ∈ db.messages ∧ row.groupId = some g ∧ row.isProximityBased = 0 := by
  have hperm : (getMessages db (some g) true none).Perm
      (db.messages.filter (fun m => m.groupId = some g ∧ m.isProximityBased = 0)) := by
    have ht : truthy none = false := rfl
    simp only [getMessages, if_true, ht, orderByTimestamp_eq]
    exact orderBy_perm _ _
  rw [hperm.mem_iff]
  simp

/-- C29 (amended): for a non-empty `groupId`, with a user logged in and a new generated id, the
message built by `ChatContext.sendMessage` is stored as proximity-based with
`proximityLocation` `'location_1'`; the list that `loadMessages` stores for that group is
`getMessages(groupId, true)` with no location, and neither that list nor a later such query
holds the message. -/
theorem sendMessage_group_hidden (env : ChatEnv) (w : World) (user : User)
    (r : Option JSString) (content messageType : JSString) (filePath : Option JSString)
    (c : Char) (cs : JSString)
    (huser : w.chat.user = some user) (hfresh : ∀ m ∈ w.db.messages, m.id ≠ env.messageId) :
    (buildMessage env user r content messageType filePath (some (c :: cs))).isProximityBased = 1 ∧
      (buildMessage env user r content messageType filePath (some (c :: cs))).proximityLocation =
        some "location_1".toList ∧
      (∃ row ∈ (ChatContext.sendMessage env w r content messageType filePath
            (some (c :: cs))).1.db.messages,
          row.id = env.messageId ∧ row.groupId = some (c :: cs) ∧ row.isProximityBased = 1 ∧
            row.proximityLocation = some "location_1".toList) ∧
      mapGet (ChatContext.sendMessage env w r content messageType filePath
            (some (c :: cs))).1.chat.messages (c :: cs) =
        some (getMessages
          { w.db with messages := w.db.messages ++
            [buildMessage env user r content messageType filePath (some (c :: cs))] }
          (some (c :: cs)) true none) ∧
      (∀ row ∈ getMessages
          { w.db with messages := w.db.messages ++
            [buildMessage env user r content messageType filePath (some (c :: cs))] }
          (some (c :: cs)) true none, row.id ≠ env.messageId) ∧
      (∀ row ∈ getMessages
          (ChatContext.sendMessage env w r content messageType filePath (some (c :: cs))).1.db
          (some (c :: cs)) true none, row.id ≠ env.messageId) := by
  have hshape := ChatContext.sendMessage_shape env w user r content messageType filePath
    (some (c :: cs)) huser hfresh
  have hbase : ∀ row ∈ w.db.messages ++
      [buildMessage env user r content messageType filePath (some (c :: cs))],
      row.isProximityBased = 0 → row.id ≠ env.messageId := by
    intro row hrow h0
    rcases List.mem_append.mp hrow with hold | hnew
    · exact hfresh row hold
    · have hrow : row = buildMessage env user r content messageType filePath (some (c :: cs)) := by
        simpa using hnew
      rw [hrow] at h0
      simp [buildMessage, truthy] at h0
  refine ⟨rfl, rfl, ?_, ?_, ?_, ?_⟩
  · rcases hshape.2 with h | h
    · refine ⟨buildMessage env user r content messageType filePath (some (c :: cs)), ?_,
        rfl, rfl, rfl, rfl⟩
      rw [h]
      simp
    · refine ⟨deliver env.messageId
        (buildMessage env user r content messageType filePath (some (c :: cs))), ?_, ?_⟩
      · rw [h]
        exact List.mem_map_of_mem _ (by simp)
      · have hd := deliver_fields env.messageId
          (buildMessage env user r content messageType filePath (some (c :: cs)))
        exact ⟨hd.1, hd.2.2.1, hd.2.2.2.1, hd.2.2.2.2⟩
  · rw [hshape.1]
    have ht : truthy (some (c :: cs)) = true := rfl
    simp only [ht, if_true, chatKey, mapGet_mapSet]
  · intro row hrow
    have hm := (getMessages_group_none_mem _ (c :: cs) row).mp hrow
    exact hbase row hm.1 hm.2.2
  · intro row hrow
    have hm := (getMessages_group_none_mem _ (c :: cs) row).mp hrow
    rcases hshape.2 with h | h
    · rw [h] at hm
      exact hbase row hm.1 hm.2.2
    · rw [h] at hm
      obtain ⟨r0, hr0, hrow0⟩ := List.mem_map.mp hm.1
      have hd := deliver_fields env.messageId r0
      rw [hrow0] at hd
      rw [hd.1]
      apply hbase r0 hr0
      rw [← hd.2.2.2.1]
      exact hm.2.2

/-- C29 (amended) at a concrete input: `u1` sends `'hi'` to group `g1`. -/
theorem sendMessage_group_hidden_witness :
    (∃ row ∈ (ChatContext.sendMessage sampleEnv sampleWorld none "hi".toList "text".toList none
            (some "g1".toList)).1.db.messages,
          row.id = "m1".toList ∧ row.groupId = some "g1".toList ∧ row.isProximityBased = 1 ∧
            row.proximityLocation = some "location_1".toList) ∧
      (∀ row ∈ getMessages
          (ChatContext.sendMessage sampleEnv sampleWorld none "hi".toList "text".toList none
            (some "g1".toList)).1.db
          (some "g1".toList) true none, row.id ≠ "m1".toList) :=
  have h := sendMessage_group_hidden sampleEnv sampleWorld
    { id := "u1".toList, username := "alice".toList } none "hi".toList "text".toList none
    'g' "1".toList rfl (by intro m hm; cases hm)
  ⟨h.2.2.1, h.2.2.2.2.2⟩

/-- C29 (as stated) fails: with the non-null `groupId` `''` the message is stored with
`isProximityBased = 0` and no `proximityLocation`. -/
theorem sendMessage_group_hidden_counterexample :
    (ChatContext.sendMessage sampleEnv sampleWorld (some "u2".toList) "hi".toList "text".toList
        none (some [])).1.db.messages.map
        (fun m => (m.id, m.groupId, m.isProximityBased, m.proximityLocation)) =
      [("m1".toList, some [], 0, none)] := by
  rfl

/-! ## Monotonicity of the stored status -/

theorem ChatContext.sendMessage_table (env : ChatEnv) (w : World) (r : Option JSString)
    (content messageType : JSString) (filePath g : Option JSString) :
    ∃ extra : List Message,
      (ChatContext.sendMessage env w r content messageType filePath g).1.db.messages =
          w.db.messages ++ extra ∨
        (ChatContext.sendMessage env w r content messageType filePath g).1.db.messages =
          (w.db.messages ++ extra).map (deliver env.messageId) := by
  cases huser : w.chat.user with
  | none =>
    refine ⟨[], Or.inl ?_⟩
    unfold ChatContext.sendMessage
    rw [huser]
    simp
  | some user =>
    cases hsave : saveMessage w.db (buildMessage env user r content messageType filePath g) with
    | none =>
      refine ⟨[], Or.inl ?_⟩
      unfold ChatContext.sendMessage
      simp only [huser, hsave]
      simp
    | some db1 =>
      rw [ChatContext.sendMessage_eq env w user r content messageType filePath g db1 huser hsave]
      have h := finishSend_shape env
        (loadMessages { w with storeCalls := w.storeCalls ++ [.saveMessage], db := db1 }
          (if truthy g then g else r) (truthy g)) r
        (buildMessage env user r content messageType filePath g)
      have hdb := saveMessage_some w.db db1 _ hsave
      refine ⟨[{ buildMessage env user r content messageType filePath g with
        isProximityBased :=
          if (buildMessage env user r content messageType filePath g).isProximityBased ≠ 0
          then 1 else 0 }], ?_⟩
      rcases h.2.2 with h1 | h1
      · left
        rw [h1]
        exact hdb
      · right
        rw [h1]
        exact congrArg (List.map (deliver env.messageId)) hdb

theorem handleMessageReceived_table (captured : ChatState) (w : World) (deviceId : DeviceId)
    (message : Message) :
    ∃ extra : List Message,
      (handleMessageReceived captured w deviceId message).db.messages =
          w.db.messages ++ extra ∨
        (handleMessageReceived captured w deviceId message).db.messages =
          (w.db.messages ++ extra).map (deliver message.id) := by
  cases hsave : saveMessage w.db message with
  | none =>
    refine ⟨[], Or.inl ?_⟩
    unfold handleMessageReceived
    rw [hsave]
    simp
  | some db1 =>
    have hdb := saveMessage_some w.db db1 _ hsave
    refine ⟨[{ message with
      isProximityBased := if message.isProximityBased ≠ 0 then 1 else 0 }], Or.inr ?_⟩
    unfold handleMessageReceived
    rw [hsave]
    simp only [updateMessageStatus_delivered]
    rw [← hdb]
    cases truthy message.groupId <;>
      by_cases hc : captured.activeChat ≠ some message.senderId ∧
        captured.activeChat ≠ message.groupId <;>
      cases captured.isInApp <;> simp [loadMessages, hc]

theorem find_status_append (l extra : List Message) (id s : JSString)
    (h : (l.find? (fun r => r.id = id)).map (fun r => r.status) = some s) :
    ((l ++ extra).find? (fun r => r.id = id)).map (fun r => r.status) = some s := by
  rw [List.find?_append]
  cases hf : l.find? (fun r => r.id = id) with
  | none => rw [hf] at h; cases h
  | some x => rw [hf] at h; simpa using h

theorem find_status_deliver (l : List Message) (id j : JSString)
    (h : (l.find? (fun r => r.id = id)).map (fun r => r.status) = some "delivered".toList) :
    ((l.map (deliver j)).find? (fun r => r.id = id)).map (fun r => r.status) =
      some "delivered".toList := by
  induction l with
  | nil => cases h
  | cons x xs ih =>
    have hd := (deliver_fields j x).1
    rw [List.map_cons]
    by_cases hx : x.id = id
    · rw [List.find?_cons_of_pos _ (by simpa using hx)] at h
      rw [List.find?_cons_of_pos _ (by simpa [hd] using hx)]
      have hs : x.status = "delivered".toList := by simpa using h
      unfold deliver
      split
      · rfl
      · simpa using hs
    · rw [List.find?_cons_of_neg _ (by simpa using hx)] at h
      rw [List.find?_cons_of_neg _ (by simpa [hd] using hx)]
      exact ih h

theorem statusOf_step (old new : Database) (id j : JSString)
    (hstep : ∃ extra : List Message,
      new.messages = old.messages ++ extra ∨
        new.messages = (old.messages ++ extra).map (deliver j))
    (h : statusOf old id = some "delivered".toList) :
    statusOf new id = some "delivered".toList := by
  obtain ⟨extra, hnew | hnew⟩ := hstep
  · unfold statusOf at h ⊢
    rw [hnew]
    exact find_status_append _ _ _ _ h
  · unfold statusOf at h ⊢
    rw [hnew]
    exact find_status_deliver _ _ _ (find_status_append _ _ _ _ h)

theorem Operation.run_status (op : Operation) (w : World) (id : JSString)
    (h : statusOf w.db id = some "delivered".toList) :
    statusOf (op.run w).db id = some "delivered".toList := by
  cases op with
  | send env r content messageType filePath g =>
    exact statusOf_step _ _ id env.messageId
      (ChatContext.sendMessage_table env w r content messageType filePath g) h
  | receive callback deviceId message =>
    exact statusOf_step _ _ id message.id
      (handleMessageReceived_table callback w deviceId message) h
  | sweep env =>
    refine statusOf_step _ _ id id ⟨[], Or.inl ?_⟩ h
    have hs : ((Operation.sweep env).run w).db.messages = w.db.messages :=
      (processMessageQueue_store env w).1
    rw [hs]
    simp

/-- C25: in every sequence of `ChatContext.sendMessage`, `handleMessageReceived` and queue
sweeps, a stored message whose status is `'delivered'` still has status `'delivered'`
afterwards (rows are only appended, or rewritten by `updateMessageStatus` with `'delivered'`). -/
theorem status_never_regresses (ops : List Operation) (w : World) (id : JSString)
    (h : statusOf w.db id = some "delivered".toList) :
    statusOf (runAll ops w).db id = some "delivered".toList := by
  unfold runAll
  induction ops generalizing w with
  | nil => exact h
  | cons op rest ih =>
    rw [List.foldl_cons]
    exact ih (op.run w) (Operation.run_status op w id h)

/-- C25 at a concrete input: message `m1` is delivered, then another send fails to write, a
message arrives and a sweep runs. -/
theorem status_never_regresses_witness :
    statusOf deliveredWorld.db "m1".toList = some "delivered".toList ∧
      statusOf (runAll laterOperations deliveredWorld).db "m1".toList =
        some "delivered".toList :=
  ⟨by rfl, status_never_regresses laterOperations deliveredWorld "m1".toList (by rfl)⟩

/-! ## Notification of inbound messages -/

theorem userEffect_callback (env : EffectEnv) (w : World) (user : User)
    (hu : w.chat.user = some user) :
    (userEffect env w).bt.onMessageReceived = some w.chat ∧
      (userEffect env w).notifications = w.notifications := by
  unfold userEffect
  rw [hu]
  simp only [setMessageReceivedCallback, startDiscovery]
  cases w.bt.isScanning <;> cases env.scanOk <;> simp

/-- C23 (evaluated at the failing input, with the behaviour of the code in general): a
callback registered by the effect in a render with the application in the foreground never
calls the notifier, whatever `setIsInApp` was called with since.  At the failing input `alice`
logged in with the application in the foreground, the application then went to the background
(`isInApp` false) with no chat open, and the group message `m8` from `u2` arrives: `activeChat`
differs from its `senderId` and from its `groupId`, the registered callback persists the
message (marked `'delivered'`) and makes no notifier call, while the closure of the current
render would call `showGroupMessageNotification` once. -/
theorem invokeCallback_stale_isInApp :
    (∀ (env : EffectEnv) (w : World) (value : Bool) (deviceId : DeviceId)
        (message : Message), w.chat.user ≠ none → w.chat.isInApp = true →
        (invokeCallback (setIsInApp (userEffect env w) value) deviceId message).notifications =
          w.notifications) ∧
      backgrounded.chat.isInApp = false ∧
      backgrounded.chat.activeChat ≠ some inboundGroupMessage.senderId ∧
      backgrounded.chat.activeChat ≠ inboundGroupMessage.groupId ∧
      backgrounded.bt.onMessageReceived.map (fun c => (c.activeChat, c.isInApp)) =
        some (none, true) ∧
      (invokeCallback backgrounded "AA:BB".toList inboundGroupMessage).db.messages.map
        (fun m => (m.id, m.status)) = [("m8".toList, "delivered".toList)] ∧
      (invokeCallback backgrounded "AA:BB".toList inboundGroupMessage).notifications = [] ∧
      (handleMessageReceived backgrounded.chat backgrounded "AA:BB".toList
        inboundGroupMessage).notifications =
        [.showGroupMessageNotification "Group".toList "Someone".toList "hello all".toList
          "g1".toList] := by
  refine ⟨?_, by rfl, by decide, by decide, by rfl, by rfl, by rfl, by rfl⟩
  intro env w value deviceId message hu hfg
  cases hu2 : w.chat.user with
  | none => exact absurd hu2 hu
  | some user =>
    obtain ⟨hcb, hn⟩ := userEffect_callback env w user hu2
    unfold invokeCallback
    have h1 : (setIsInApp (userEffect env w) value).bt.onMessageReceived = some w.chat := hcb
    rw [h1]
    simp only [handleMessageReceived_notifications]
    have h2 : (setIsInApp (userEffect env w) value).notifications = w.notifications := hn
    rw [h2, hfg]
    cases saveMessage (setIsInApp (userEffect env w) value).db message with
    | none => rfl
    | some db => simp

/-! ## What the sweep transmits -/

/-- C26 (evaluated at the failing input): `u1` sends `'hi'` to `u2` while `u2` is not connected,
`u2` then connects, and the sweep runs with every write resolving.  The frames written to `u2`
concatenate to `'{"id":"m1"}'`, the serialization of an object holding the id alone, not to the
serialization of the stored message `m1` (which also holds sender, recipient, content, type,
status and timestamp). -/
theorem processMessageQueue_frames :
    framesTo "u2".toList reconnected.radio = [] ∧
      (framesTo "u2".toList (processMessageQueue sweepOk reconnected).radio).flatten =
        "\x7b\"id\":\"m1\"\x7d".toList ∧
      (framesTo "u2".toList (processMessageQueue sweepOk reconnected).radio).flatten =
        JSON.stringify (.idOnly "m1".toList) ∧
      reconnected.db.messages =
        [buildMessage sampleEnv { id := "u1".toList, username := "alice".toList }
          (some "u2".toList) "hi".toList "text".toList none none] ∧
      JSON.stringify (.message
          (buildMessage sampleEnv { id := "u1".toList, username := "alice".toList }
            (some "u2".toList) "hi".toList "text".toList none none)) =
        ("\x7b\"id\":\"m1\",\"senderId\":\"u1\",\"recipientId\":\"u2\",\"groupId\":null," ++
          "\"content\":\"hi\",\"messageType\":\"text\",\"filePath\":null,\"status\":\"sent\"," ++
          "\"timestamp\":100,\"isProximityBased\":0,\"proximityLocation\":null\x7d").toList ∧
      (framesTo "u2".toList (processMessageQueue sweepOk reconnected).radio).flatten ≠
        JSON.stringify (.message
          (buildMessage sampleEnv { id := "u1".toList, username := "alice".toList }
            (some "u2".toList) "hi".toList "text".toList none none)) := by
  refine ⟨by rfl, by rfl, by rfl, by rfl, by rfl, by decide⟩

end BChat
